import Mathlib

/-!
Verification of the qcli command-line assembly engine.

Each Go function of the repository that the properties below mention is
embedded as an executable Lean definition.  Process aborts (runtime panics
such as an out-of-range array index, and `log.Fatalf`) are modelled by the
`fatal` constructor of `GoOut`; Go `error` values returned to the caller are
modelled as `Option String` components of the returned value (`none` = nil).
-/

namespace QCli

set_option linter.unusedVariables false

/-- Outcome of running a Go function body: it either returns a value or the
process aborts (runtime panic / `log.Fatal`). -/
inductive GoOut (α : Type) where
  | ret (a : α)
  | fatal (msg : String)
deriving DecidableEq

def GoOut.bind {α β : Type} : GoOut α → (α → GoOut β) → GoOut β
  | .ret a, f => f a
  | .fatal m, _ => .fatal m

instance : Monad GoOut where
  pure := GoOut.ret
  bind := GoOut.bind

@[simp] theorem GoOut.bind_ret {α β : Type} (a : α) (f : α → GoOut β) :
    GoOut.bind (.ret a) f = f a := rfl

@[simp] theorem GoOut.bind_fatal {α β : Type} (m : String) (f : α → GoOut β) :
    GoOut.bind (.fatal m) f = .fatal m := rfl

@[simp] theorem GoOut.monad_bind_eq {α β : Type} (x : GoOut α) (f : α → GoOut β) :
    x >>= f = GoOut.bind x f := rfl

@[simp] theorem GoOut.pure_eq {α : Type} (a : α) : (pure a : GoOut α) = .ret a := rfl

/-- Decimal digit value of a character, as used by `strconv.Atoi`. -/
def digToNat (c : Char) : Option Nat :=
  if '0' ≤ c ∧ c ≤ '9' then some (c.toNat - '0'.toNat) else none

def parseDigitsAux : List Char → Nat → Option Nat
  | [], acc => some acc
  | c :: cs, acc =>
    match digToNat c with
    | some d => parseDigitsAux cs (acc * 10 + d)
    | none => none

/-- One or more decimal digits, the whole list consumed. -/
def parseDigits : List Char → Option Nat
  | [] => none
  | l => parseDigitsAux l 0

/-- Model of Go `strconv.Atoi`: optional sign followed by one or more decimal
digits, consuming the entire string (no spaces, no base prefixes).  The int64
range check is not modelled; every input of interest is small. -/
def goAtoi (s : String) : Option Int :=
  match s.data with
  | [] => none
  | '+' :: rest => (parseDigits rest).map Int.ofNat
  | '-' :: rest => (parseDigits rest).map (fun n => - Int.ofNat n)
  | l => (parseDigits l).map Int.ofNat

/-- Lower-case hexadecimal digit character. -/
def hexDigit (n : Nat) : Char :=
  if n < 10 then Char.ofNat ('0'.toNat + n) else Char.ofNat ('a'.toNat + (n - 10))

def hexCharsAux : Nat → Nat → List Char
  | 0, _ => []
  | _ + 1, 0 => []
  | fuel + 1, n + 1 => hexCharsAux fuel ((n + 1) / 16) ++ [hexDigit ((n + 1) % 16)]

/-- Hexadecimal digit list of `n` (most significant first); `n` itself is
enough fuel since the value shrinks by a factor 16 every step. -/
def hexChars (n : Nat) : List Char := hexCharsAux n n

/-- `fmt.Sprintf("%02x", n)`: lower-case hex, zero-padded to width two. -/
def sprintfHex02 (n : Int) : String :=
  let l := if n.toNat = 0 then ['0'] else hexChars n.toNat
  let l := if l.length < 2 then List.replicate (2 - l.length) '0' ++ l else l
  String.mk l

/-! ## The PCI bus slot allocator (pciexpress.go) -/

/-- `const PCISlotMax int = 31` -/
abbrev PCISlotMax : Nat := 31

/-- `const PCISlotOffset = 3` (slots 0, 1 and 2 are always taken). -/
abbrev PCISlotOffset : Nat := 3

/-- `type PCIBus [PCISlotMax]bool`: a fixed array of `PCISlotMax` booleans,
so the valid indices are `0 .. PCISlotMax-1`. -/
def PCIBus : Type := Fin PCISlotMax → Bool

instance : DecidableEq PCIBus := fun b1 b2 =>
  decidable_of_iff ((List.finRange PCISlotMax).all (fun i => b1 i == b2 i) = true)
    (by
      rw [List.all_eq_true]
      constructor
      · intro h
        funext i
        exact eq_of_beq (h i (List.mem_finRange i))
      · intro h i _
        rw [h]
        exact beq_self_eq_true _)

/-- The zero value of a `PCIBus`: every slot free. -/
def emptyPCIBus : PCIBus := fun _ => false

/-- Pointwise array update `bus[i] = true` (kept as a plain conditional so
that concrete instances evaluate). -/
def busSet (bus : PCIBus) (i : Fin PCISlotMax) : PCIBus :=
  fun j => if j = i then true else bus j

/-- Go's runtime bounds check on the array read `bus[slot]`: an index outside
`0 .. PCISlotMax-1` panics. -/
def busRead (bus : PCIBus) (slot : Int) : GoOut Bool :=
  if h : 0 ≤ slot ∧ slot < (PCISlotMax : Int) then
    .ret (bus ⟨slot.toNat, by omega⟩)
  else .fatal "runtime error: index out of range"

/-- Go's runtime bounds check on the array write `bus[slot] = true`. -/
def busWrite (bus : PCIBus) (slot : Int) : GoOut PCIBus :=
  if h : 0 ≤ slot ∧ slot < (PCISlotMax : Int) then
    .ret (busSet bus ⟨slot.toNat, by omega⟩)
  else .fatal "runtime error: index out of range"

/-- `func (bus *PCIBus) SetSlot(slot int) error`.  The pair holds the updated
bus and the returned error.  Note the guard is `slot > PCISlotMax`, while the
array write is bounds-checked against `PCISlotMax`. -/
def PCIBus.SetSlot (bus : PCIBus) (slot : Int) : GoOut (PCIBus × Option String) :=
  if slot > (PCISlotMax : Int) then
    .ret (bus, some ("Slot " ++ toString slot ++ " must be < " ++ toString PCISlotMax))
  else do
    let bus' ← busWrite bus slot
    -- log.Debugf has no observable effect
    return (bus', none)

/-- `func parseBusAddrString(addr string) (int, error)`.  The source first
builds a cleaned-up `addrString` (picking the token after a "/", stripping
"0x"/"0X"), but the conversion that produces the result is
`strconv.Atoi(addr)` on the ORIGINAL argument, so the cleaned string never
influences the returned value. -/
def parseBusAddrString (addr : String) : Int × Option String :=
  match goAtoi addr with
  | some n => (n, none)
  | none => (-1, some ("strconv.Atoi: parsing " ++ addr ++ ": invalid syntax"))

/-- The automatic-search loop of `GetSlot`:
`for slot := PCISlotMax - 1; slot > PCISlotOffset; slot--`.  The parameter is
the current loop counter; the loop is entered at `PCISlotMax - 1`. -/
def getSlotLoop (bus : PCIBus) : Nat → GoOut (Int × PCIBus)
  | 0 => .ret (-1, bus)
  | n + 1 =>
    if n + 1 > PCISlotOffset then do
      let status ← busRead bus (Int.ofNat (n + 1))
      if status = false then do
        let r ← PCIBus.SetSlot bus (Int.ofNat (n + 1))
        -- a SetSlot error would only be logged
        return (Int.ofNat (n + 1), r.1)
      else getSlotLoop bus n
    else .ret (-1, bus)

/-- `func (bus *PCIBus) GetSlot(busAddr string) int`; the pair holds the
returned slot and the updated bus. -/
def PCIBus.GetSlot (bus : PCIBus) (busAddr : String) : GoOut (Int × PCIBus) :=
  if busAddr ≠ "" then
    let slot := (parseBusAddrString busAddr).1
    if slot > 0 then do
      let status ← busRead bus slot
      if status = false then do
        let r ← PCIBus.SetSlot bus slot
        return (slot, r.1)
      else getSlotLoop bus (PCISlotMax - 1)
    else getSlotLoop bus (PCISlotMax - 1)
  else getSlotLoop bus (PCISlotMax - 1)

/-! ## Basic lemmas about the allocator -/

theorem busSet_self (bus : PCIBus) (i : Fin PCISlotMax) : busSet bus i i = true := by
  simp [busSet]

theorem busSet_other (bus : PCIBus) (i j : Fin PCISlotMax) (h : j ≠ i) :
    busSet bus i j = bus j := by
  simp [busSet, h]

theorem busSet_of_used (bus : PCIBus) (i : Fin PCISlotMax) (h : bus i = true) :
    busSet bus i = bus := by
  funext j
  by_cases hj : j = i
  · subst hj; simp [busSet, h]
  · simp [busSet, hj]

theorem busRead_nat (bus : PCIBus) (s : Nat) (h : s < PCISlotMax) :
    busRead bus (Int.ofNat s) = .ret (bus ⟨s, h⟩) := by
  have h31 : s < 31 := h
  unfold busRead
  rw [dif_pos ⟨by show (0 : Int) ≤ (s : Int); omega, by show (s : Int) < (31 : Int); omega⟩]
  rfl

theorem SetSlot_nat (bus : PCIBus) (s : Nat) (h : s < PCISlotMax) :
    PCIBus.SetSlot bus (Int.ofNat s) = .ret (busSet bus ⟨s, h⟩, none) := by
  have h31 : s < 31 := h
  unfold PCIBus.SetSlot busWrite
  rw [if_neg (by show ¬ (s : Int) > (31 : Int); omega)]
  rw [GoOut.monad_bind_eq,
    dif_pos (⟨by show (0 : Int) ≤ (s : Int); omega, by show (s : Int) < (31 : Int); omega⟩ :
      0 ≤ Int.ofNat s ∧ Int.ofNat s < (PCISlotMax : Int))]
  rfl

theorem busRead_int (bus : PCIBus) (s : Int) (h0 : 0 ≤ s) (h1 : s < (31 : Int)) :
    busRead bus s = .ret (bus ⟨s.toNat, by show s.toNat < 31; omega⟩) := by
  unfold busRead
  rw [dif_pos ⟨h0, h1⟩]

theorem SetSlot_int (bus : PCIBus) (s : Int) (h0 : 0 ≤ s) (h1 : s < (31 : Int)) :
    PCIBus.SetSlot bus s = .ret (busSet bus ⟨s.toNat, by show s.toNat < 31; omega⟩, none) := by
  unfold PCIBus.SetSlot busWrite
  rw [if_neg (by show ¬ s > (31 : Int); omega)]
  rw [GoOut.monad_bind_eq, dif_pos ⟨h0, h1⟩]
  rfl

/-- Full characterisation of the automatic-search loop `getSlotLoop`: it never
aborts, and either every candidate slot in `(PCISlotOffset, n]` is used and it
returns `-1` leaving the bus unchanged, or it returns the largest free slot in
that window and marks it. -/
theorem getSlotLoop_spec (bus : PCIBus) (n : Nat) (hn : n < PCISlotMax) :
    (getSlotLoop bus n = .ret (-1, bus) ∧
      ∀ s : Fin PCISlotMax, PCISlotOffset < s.val → s.val ≤ n → bus s = true) ∨
    (∃ s : Fin PCISlotMax, getSlotLoop bus n = .ret ((s.val : Int), busSet bus s) ∧
      PCISlotOffset < s.val ∧ s.val ≤ n ∧ bus s = false ∧
      ∀ t : Fin PCISlotMax, s < t → t.val ≤ n → bus t = true) := by
  induction n with
  | zero =>
    left
    exact ⟨rfl, fun s hs hs0 => by omega⟩
  | succ n ih =>
    by_cases hgt : n + 1 > PCISlotOffset
    · have hread := busRead_nat bus (n + 1) hn
      by_cases hfree : bus ⟨n + 1, hn⟩ = false
      · right
        refine ⟨⟨n + 1, hn⟩, ?_, hgt, le_refl _, hfree, ?_⟩
        · show getSlotLoop bus (n + 1) = .ret (Int.ofNat (n + 1), busSet bus ⟨n + 1, hn⟩)
          unfold getSlotLoop
          rw [if_pos hgt]
          rw [GoOut.monad_bind_eq, hread, GoOut.bind_ret]
          rw [if_pos hfree]
          rw [GoOut.monad_bind_eq, SetSlot_nat bus (n + 1) hn, GoOut.bind_ret]
          rfl
        · intro t ht hle
          have ht2 : n + 1 < t.val := ht
          omega
      · have hused : bus ⟨n + 1, hn⟩ = true := by
          cases h : bus ⟨n + 1, hn⟩
          · exact absurd h hfree
          · rfl
        have hstep : getSlotLoop bus (n + 1) = getSlotLoop bus n := by
          conv_lhs => unfold getSlotLoop
          rw [if_pos hgt]
          rw [GoOut.monad_bind_eq, hread, GoOut.bind_ret]
          rw [if_neg (by simp [hused])]
        rcases ih (by omega) with ⟨heq, hall⟩ | ⟨s, heq, hs1, hs2, hs3, hs4⟩
        · left
          refine ⟨hstep ▸ heq, ?_⟩
          intro s hs hle
          rcases Nat.lt_or_ge s.val (n + 1) with h | h
          · exact hall s hs (by omega)
          · have hv : s = ⟨n + 1, hn⟩ := by
              apply Fin.ext
              show s.val = n + 1
              omega
            rw [hv]
            exact hused
        · right
          refine ⟨s, hstep ▸ heq, hs1, by omega, hs3, ?_⟩
          intro t ht hle
          rcases Nat.lt_or_ge t.val (n + 1) with h | h
          · exact hs4 t ht (by omega)
          · have hv : t = ⟨n + 1, hn⟩ := by
              apply Fin.ext
              show t.val = n + 1
              omega
            rw [hv]
            exact hused
    · left
      constructor
      · unfold getSlotLoop
        cases n with
        | zero => rfl
        | succ m => rw [if_neg hgt]
      · intro s hs hle
        omega

/-- When a parse of the explicit address fails, the returned slot value is
`-1`. -/
theorem parseBusAddrString_fail (addr : String)
    (h : (parseBusAddrString addr).2 ≠ none) : (parseBusAddrString addr).1 = -1 := by
  unfold parseBusAddrString at *
  cases hg : goAtoi addr
  · simp [hg]
  · rw [hg] at h
    simp at h

/-- A `GetSlot` request with an empty or unparseable explicit address falls
through to the automatic search loop. -/
theorem GetSlot_auto (bus : PCIBus) (addr : String)
    (h : addr = "" ∨ (parseBusAddrString addr).2 ≠ none) :
    PCIBus.GetSlot bus addr = getSlotLoop bus (PCISlotMax - 1) := by
  rcases h with h | h
  · unfold PCIBus.GetSlot
    rw [if_neg (by simp [h])]
  · unfold PCIBus.GetSlot
    by_cases he : addr = ""
    · rw [if_neg (by simp [he])]
    · rw [if_pos he]
      rw [parseBusAddrString_fail addr h]
      norm_num

/-- One automatic `GetSlot` call as a total function; the search loop never
aborts, so the default arm is unreachable. -/
def autoStep (bus : PCIBus) : Int × PCIBus :=
  match getSlotLoop bus (PCISlotMax - 1) with
  | .ret r => r
  | .fatal _ => (-1, bus)

theorem getSlotLoop_top_ret (bus : PCIBus) :
    getSlotLoop bus (PCISlotMax - 1) = .ret (autoStep bus) := by
  rcases getSlotLoop_spec bus (PCISlotMax - 1) (by decide) with ⟨heq, _⟩ | ⟨sl, heq, _⟩ <;>
  · unfold autoStep
    rw [heq]

/-- The bus after `k` automatic allocations. -/
def autoIter (bus : PCIBus) : Nat → PCIBus
  | 0 => bus
  | k + 1 => (autoStep (autoIter bus k)).2

/-- The slot returned by the `k`-th automatic allocation (0-based). -/
def autoRet (bus : PCIBus) (k : Nat) : Int := (autoStep (autoIter bus k)).1

theorem autoStep_spec (bus : PCIBus) :
    ((autoStep bus).1 = -1 ∧ (autoStep bus).2 = bus) ∨
    (∃ sl : Fin PCISlotMax, (autoStep bus).1 = (sl.val : Int) ∧
      (autoStep bus).2 = busSet bus sl ∧ PCISlotOffset < sl.val ∧ bus sl = false ∧
      ∀ t : Fin PCISlotMax, sl < t → bus t = true) := by
  rcases getSlotLoop_spec bus (PCISlotMax - 1) (by decide) with ⟨heq, _⟩ | ⟨sl, heq, h1, _, h3, h4⟩
  · left
    have h : autoStep bus = (-1, bus) := by
      unfold autoStep
      rw [heq]
    rw [h]
    exact ⟨rfl, rfl⟩
  · right
    have h : autoStep bus = ((sl.val : Int), busSet bus sl) := by
      unfold autoStep
      rw [heq]
    refine ⟨sl, ?_, ?_, h1, h3, ?_⟩
    · rw [h]
    · rw [h]
    · intro t ht
      refine h4 t ht ?_
      have := t.isLt
      omega

theorem autoStep_mono (bus : PCIBus) (i : Fin PCISlotMax) (h : bus i = true) :
    (autoStep bus).2 i = true := by
  rcases autoStep_spec bus with ⟨_, h2⟩ | ⟨sl, _, h2, _, _, _⟩
  · rw [h2]; exact h
  · rw [h2]
    by_cases hi : i = sl
    · subst hi; exact busSet_self _ _
    · rw [busSet_other _ _ _ hi]; exact h

theorem autoIter_mono (bus : PCIBus) (i : Fin PCISlotMax) (k l : Nat) (hkl : k ≤ l)
    (h : autoIter bus k i = true) : autoIter bus l i = true := by
  induction l with
  | zero =>
    have : k = 0 := by omega
    subst this
    exact h
  | succ l ih =>
    rcases Nat.lt_or_ge k (l + 1) with hlt | hge
    · have := ih (by omega)
      exact autoStep_mono _ _ this
    · have : k = l + 1 := by omega
      subst this
      exact h

/-! ## Claims C2, C3, C4, C10 -/

/-- Claim C2, counterexample: slot 5 of the bus is already marked used, yet
`SetSlot 5` succeeds with a nil error instead of reporting a collision (the
bus is returned unchanged: the slot simply stays marked). -/
theorem C2_counterexample :
    (busSet emptyPCIBus ⟨5, by decide⟩) ⟨5, by decide⟩ = true ∧
    PCIBus.SetSlot (busSet emptyPCIBus ⟨5, by decide⟩) 5 =
      .ret (busSet emptyPCIBus ⟨5, by decide⟩, none) := by
  constructor
  · decide
  · have h := SetSlot_int (busSet emptyPCIBus ⟨5, by decide⟩) 5 (by decide) (by decide)
    rw [busSet_of_used (busSet emptyPCIBus ⟨5, by decide⟩)
      ⟨(5 : Int).toNat, by decide⟩ (by decide)] at h
    exact h

/-- Claim C2 (amended): `SetSlot` performs no collision check at all.  For
every in-range slot that is already marked used, `SetSlot` returns a nil
error and leaves the bus unchanged (the slot stays used); collision handling
is done instead by `GetSlot`, which reads the slot's status before calling
`SetSlot` and falls through to the automatic search when the requested slot
is taken. -/
theorem C2_SetSlot_no_collision_error (bus : PCIBus) (slot : Int)
    (h0 : 0 ≤ slot) (h1 : slot < (31 : Int))
    (hused : bus ⟨slot.toNat, (by omega : slot.toNat < 31)⟩ = true) :
    PCIBus.SetSlot bus slot = .ret (bus, none) := by
  rw [SetSlot_int bus slot h0 h1, busSet_of_used bus _ hused]

/-- Witness for the amended C2 theorem at slot 5 of a bus where slot 5 is
used. -/
theorem C2_SetSlot_no_collision_error_witness :
    PCIBus.SetSlot (busSet emptyPCIBus ⟨5, by decide⟩) 5 =
      .ret (busSet emptyPCIBus ⟨5, by decide⟩, none) :=
  C2_SetSlot_no_collision_error (busSet emptyPCIBus ⟨5, by decide⟩) 5
    (by decide) (by decide) (by decide)

/-- Claim C3, counterexample: slot 0 is inside the range `0 ≤ S < 31` the
claim quantifies over, but on an all-free bus `GetSlot "0"` does not return
0: the guard `slot > 0` rejects it and the automatic search returns 30. -/
theorem C3_counterexample :
    PCIBus.GetSlot emptyPCIBus "0" = .ret (30, busSet emptyPCIBus ⟨30, by decide⟩) ∧
    (30 : Int) ≠ 0 := by
  constructor
  · decide
  · decide

/-- Claim C3 (amended): for every slot `S` with `1 ≤ S < 31` (slot 0 cannot
be requested explicitly: the guard `slot > 0` sends it to the automatic
search) and every non-empty address string parsing to `S`, `GetSlot` on an
all-free bus returns exactly `S` and marks `S` used. -/
theorem C3_GetSlot_explicit_empty_bus (S : Int) (sstr : String) (hne : sstr ≠ "")
    (hparse : parseBusAddrString sstr = (S, none)) (h1 : 1 ≤ S)
    (h2 : S < (31 : Int)) :
    PCIBus.GetSlot emptyPCIBus sstr =
      .ret (S, busSet emptyPCIBus ⟨S.toNat, (by omega : S.toNat < 31)⟩) := by
  have h31 : S < (31 : Int) := h2
  have hfst : (parseBusAddrString sstr).1 = S := by rw [hparse]
  have hgt : S > 0 := by omega
  unfold PCIBus.GetSlot
  rw [if_pos hne]
  simp only [hfst]
  rw [if_pos hgt]
  rw [GoOut.monad_bind_eq, busRead_int emptyPCIBus S (by omega) h31, GoOut.bind_ret]
  rw [if_pos (show emptyPCIBus ⟨S.toNat, (by omega : S.toNat < 31)⟩ = (false : Bool) from rfl)]
  rw [GoOut.monad_bind_eq, SetSlot_int emptyPCIBus S (by omega) h31, GoOut.bind_ret]
  rfl

/-- Witness for the amended C3 theorem: requesting the explicit address "7"
on an all-free bus yields slot 7. -/
theorem C3_GetSlot_explicit_empty_bus_witness :
    PCIBus.GetSlot emptyPCIBus "7" = .ret (7, busSet emptyPCIBus ⟨7, by decide⟩) :=
  C3_GetSlot_explicit_empty_bus 7 "7" (by decide) (by decide) (by decide) (by decide)

/-- Claim C4: automatic allocation (empty or unparseable explicit address)
assigns slots in strictly descending order from the top of the range.  For
any start bus and any sequence of such calls: (1) each call is exactly one
`autoStep`, (2) every successful call returns a slot above the reserved
offset that was free beforehand while every slot above it was already used
(first free slot scanning down from the top), and (3) the successful results
are strictly descending. -/
theorem C4_auto_allocation_descending (bus : PCIBus) (addrs : Nat → String)
    (haddr : ∀ k, addrs k = "" ∨ (parseBusAddrString (addrs k)).2 ≠ none) :
    (∀ k, PCIBus.GetSlot (autoIter bus k) (addrs k) =
        .ret (autoRet bus k, autoIter bus (k + 1)))
    ∧ (∀ k, 0 ≤ autoRet bus k →
        ∃ sl : Fin PCISlotMax, (sl.val : Int) = autoRet bus k ∧
          PCISlotOffset < sl.val ∧ autoIter bus k sl = false ∧
          ∀ t : Fin PCISlotMax, sl < t → autoIter bus k t = true)
    ∧ (∀ i j, i < j → 0 ≤ autoRet bus i → 0 ≤ autoRet bus j →
        autoRet bus j < autoRet bus i) := by
  have hstep : ∀ k, PCIBus.GetSlot (autoIter bus k) (addrs k) =
      .ret (autoRet bus k, autoIter bus (k + 1)) := by
    intro k
    rw [GetSlot_auto _ _ (haddr k), getSlotLoop_top_ret]
    rfl
  have hchar : ∀ k, 0 ≤ autoRet bus k →
      ∃ sl : Fin PCISlotMax, (sl.val : Int) = autoRet bus k ∧
        PCISlotOffset < sl.val ∧ autoIter bus k sl = false ∧
        ∀ t : Fin PCISlotMax, sl < t → autoIter bus k t = true := by
    intro k hk
    rcases autoStep_spec (autoIter bus k) with ⟨h1, _⟩ | ⟨sl, h1, _, h3, h4, h5⟩
    · exfalso
      rw [autoRet] at hk
      omega
    · exact ⟨sl, h1.symm, h3, h4, h5⟩
  refine ⟨hstep, hchar, ?_⟩
  intro i j hij hi hj
  rcases hchar i hi with ⟨si, hsi, hsio, hsif, hsia⟩
  rcases hchar j hj with ⟨sj, hsj, hsjo, hsjf, hsja⟩
  have hmarked : autoIter bus (i + 1) si = true := by
    rcases autoStep_spec (autoIter bus i) with ⟨h1, _⟩ | ⟨sl, h1, h2, _, _, _⟩
    · exfalso
      rw [autoRet] at hi
      omega
    · have hsl : sl = si := by
        apply Fin.ext
        have : (sl.val : Int) = (si.val : Int) := by
          rw [autoRet] at hsi
          omega
        omega
      show (autoStep (autoIter bus i)).2 si = true
      rw [h2, ← hsl]
      exact busSet_self _ _
  have hmarkj : autoIter bus j si = true :=
    autoIter_mono bus si (i + 1) j (by omega) hmarked
  by_contra hcon
  have hge : autoRet bus i ≤ autoRet bus j := by omega
  rcases eq_or_lt_of_le hge with heq | hlt
  · have : si = sj := by
      apply Fin.ext
      have : (si.val : Int) = (sj.val : Int) := by omega
      omega
    rw [this] at hmarkj
    rw [hmarkj] at hsjf
    exact Bool.noConfusion hsjf
  · have hlt2 : si < sj := by
      show si.val < sj.val
      have : (si.val : Int) < (sj.val : Int) := by omega
      omega
    have hused : autoIter bus i sj = true := hsia sj hlt2
    have : autoIter bus j sj = true :=
      autoIter_mono bus sj i j (by omega) hused
    rw [this] at hsjf
    exact Bool.noConfusion hsjf

/-- Witness for C4: starting from an all-free bus, two consecutive automatic
allocations (empty address) return slots 30 then 29, strictly descending. -/
theorem C4_auto_allocation_descending_witness :
    PCIBus.GetSlot emptyPCIBus "" = .ret (autoRet emptyPCIBus 0, autoIter emptyPCIBus 1) ∧
    autoRet emptyPCIBus 0 = 30 ∧ autoRet emptyPCIBus 1 = 29 ∧
    autoRet emptyPCIBus 1 < autoRet emptyPCIBus 0 := by
  have h := C4_auto_allocation_descending emptyPCIBus (fun _ => "") (fun k => Or.inl rfl)
  exact ⟨h.1 0, by decide, by decide, h.2.2 0 1 (by omega) (by decide) (by decide)⟩

/-- Claim C10 (code bug): `SetSlot` at the boundary slot `PCISlotMax = 31`
passes the guard `slot > PCISlotMax`, and the subsequent write `bus[31]` on
the 31-element array is an out-of-range access: the process panics instead
of returning the error the guard's own message ("must be < 31") promises.
The same happens for `GetSlot` with an explicit address parsing to 31. -/
theorem C10_boundary_slot_panics (bus : PCIBus) :
    PCIBus.SetSlot bus ((PCISlotMax : Nat) : Int) =
      .fatal "runtime error: index out of range" ∧
    PCIBus.GetSlot bus "31" = .fatal "runtime error: index out of range" := by
  constructor
  · unfold PCIBus.SetSlot busWrite
    rw [if_neg (by show ¬ (31 : Int) > (31 : Int); omega)]
    rw [GoOut.monad_bind_eq,
      dif_neg (by show ¬ ((0 : Int) ≤ 31 ∧ (31 : Int) < (31 : Int)); omega)]
    rfl
  · unfold PCIBus.GetSlot busRead
    rw [if_pos (by decide)]
    have hfst : (parseBusAddrString "31").1 = 31 := by decide
    simp only [hfst]
    rw [if_pos (by omega)]
    rw [GoOut.monad_bind_eq,
      dif_neg (by show ¬ ((0 : Int) ≤ 31 ∧ (31 : Int) < (31 : Int)); omega)]
    rfl

/-! ## The per-category index registry (qemuindex.go) -/

/-- `type QemuIndex struct { bits *bit.Set }`: the set of already-used
non-negative indices of one category. -/
abbrev QemuIndex : Type := Finset Nat

/-- `func NewQemuIndex() *QemuIndex` -/
def NewQemuIndex : QemuIndex := ∅

/-- `func (q *QemuIndex) Set(index int) error`: recording an index that is
already present fails. -/
def QemuIndex.Set (q : QemuIndex) (index : Nat) : QemuIndex × Option String :=
  if index ∈ q then (q, some ("Index " ++ toString index ++ " already set"))
  else (insert index q, none)

/-- `func (q *QemuIndex) Next() int`: 0 when nothing is set yet, else
`Max()+1`; the returned index is recorded via `Set` (whose error is
ignored — it cannot fire). -/
def QemuIndex.Next (q : QemuIndex) : Int × QemuIndex :=
  if h : q = ∅ then
    ((0 : Int), (QemuIndex.Set q 0).1)
  else
    let next := q.max' (Finset.nonempty_iff_ne_empty.mpr h) + 1
    ((next : Int), (QemuIndex.Set q next).1)

/-- `type QemuTypeIndex map[string]*QemuIndex`.  A key that was never used
behaves exactly like a freshly created empty `QemuIndex` (the Go code
allocates one on first access), so the map is modelled as a total function
defaulting to the empty set. -/
abbrev QemuTypeIndex : Type := String → QemuIndex

/-- `func NewQemuTypeIndex() *QemuTypeIndex` -/
def NewQemuTypeIndex : QemuTypeIndex := fun _ => ∅

/-- `func (qti QemuTypeIndex) Next(qtype string) int`: an empty category key
is rejected with -1 (only logged); otherwise the category's `QemuIndex`
answers. -/
def QemuTypeIndex.Next (qti : QemuTypeIndex) (qtype : String) : Int × QemuTypeIndex :=
  if qtype = "" then (-1, qti)
  else
    let r := (qti qtype).Next
    (r.1, fun k => if k = qtype then r.2 else qti k)

/-- `func (qti QemuTypeIndex) Set(qtype string, index int) error` -/
def QemuTypeIndex.Set (qti : QemuTypeIndex) (qtype : String) (index : Nat) :
    QemuTypeIndex × Option String :=
  if qtype = "" then (qti, some "Invalid empty qtype parameter")
  else
    let r := (qti qtype).Set index
    ((fun k => if k = qtype then r.1 else qti k), r.2)

theorem QemuIndex.Next_empty (q : QemuIndex) (h : q = ∅) :
    q.Next = (0, {0}) := by
  subst h
  rfl

theorem QemuIndex.Next_nonempty (q : QemuIndex) (h : q.Nonempty) :
    q.Next = (((q.max' h : Nat) : Int) + 1, insert (q.max' h + 1) q) := by
  have hne : ¬ q = ∅ := Finset.nonempty_iff_ne_empty.mp h
  have hnotmem : q.max' h + 1 ∉ q := by
    intro hmem
    have := Finset.le_max' q _ hmem
    omega
  unfold QemuIndex.Next
  rw [dif_neg hne]
  simp only [QemuIndex.Set, if_neg hnotmem]
  push_cast
  rfl

theorem QemuIndex.Next_fresh (q : QemuIndex) :
    0 ≤ q.Next.1 ∧ q.Next.1.toNat ∉ q ∧ q.Next.1.toNat ∈ q.Next.2 ∧ q ⊆ q.Next.2 := by
  rcases Finset.eq_empty_or_nonempty q with h | h
  · rw [QemuIndex.Next_empty q h]
    subst h
    refine ⟨by omega, by simp, by simp, by simp⟩
  · rw [QemuIndex.Next_nonempty q h]
    have hnotmem : q.max' h + 1 ∉ q := by
      intro hmem
      have := Finset.le_max' q _ hmem
      omega
    refine ⟨by omega, ?_, ?_, ?_⟩
    · simpa using hnotmem
    · simp
    · exact Finset.subset_insert _ _

/-- Claim C8, counterexample: for the empty category key, `Next` returns -1
(not 0, although nothing is allocated for that key) and marks nothing used,
so a second call returns -1 again: the same value twice. -/
theorem C8_counterexample :
    (QemuTypeIndex.Next NewQemuTypeIndex "").1 = -1 ∧ (-1 : Int) ≠ 0 ∧
    (QemuTypeIndex.Next NewQemuTypeIndex "").2 = NewQemuTypeIndex ∧
    (QemuTypeIndex.Next (QemuTypeIndex.Next NewQemuTypeIndex "").2 "").1 =
      (QemuTypeIndex.Next NewQemuTypeIndex "").1 := by
  refine ⟨rfl, by decide, rfl, rfl⟩

/-- Claim C8 (amended): for every NON-EMPTY category key and every registry
state, `Next` returns 0 when no index is allocated yet for that category and
`max(used)+1` otherwise; the returned value was not used before, is marked
used afterwards, and every category's used-set only grows, so any later
`Next` for the same category — i.e. from any state whose used-sets contain
this call's — returns a different index.  (For the empty key, `Next` returns
the sentinel -1 and records nothing.) -/
theorem C8_Next_fresh_and_monotone (qti : QemuTypeIndex) (qtype : String)
    (hq : qtype ≠ "") :
    (qti qtype = ∅ → (QemuTypeIndex.Next qti qtype).1 = 0)
    ∧ (∀ h : (qti qtype).Nonempty,
        (QemuTypeIndex.Next qti qtype).1 = (((qti qtype).max' h : Nat) : Int) + 1)
    ∧ 0 ≤ (QemuTypeIndex.Next qti qtype).1
    ∧ (QemuTypeIndex.Next qti qtype).1.toNat ∉ qti qtype
    ∧ (QemuTypeIndex.Next qti qtype).1.toNat ∈ (QemuTypeIndex.Next qti qtype).2 qtype
    ∧ (∀ k, qti k ⊆ (QemuTypeIndex.Next qti qtype).2 k)
    ∧ (∀ qti2 : QemuTypeIndex, (∀ k, (QemuTypeIndex.Next qti qtype).2 k ⊆ qti2 k) →
        (QemuTypeIndex.Next qti2 qtype).1 ≠ (QemuTypeIndex.Next qti qtype).1) := by
  have hqti : QemuTypeIndex.Next qti qtype =
      ((qti qtype).Next.1, fun k => if k = qtype then (qti qtype).Next.2 else qti k) := by
    unfold QemuTypeIndex.Next
    rw [if_neg hq]
  have hfresh := QemuIndex.Next_fresh (qti qtype)
  refine ⟨?_, ?_, ?_, ?_, ?_, ?_, ?_⟩
  · intro h
    rw [hqti]
    show (qti qtype).Next.1 = 0
    rw [QemuIndex.Next_empty _ h]
  · intro h
    rw [hqti]
    show (qti qtype).Next.1 = _
    rw [QemuIndex.Next_nonempty _ h]
  · rw [hqti]
    exact hfresh.1
  · rw [hqti]
    exact hfresh.2.1
  · rw [hqti]
    show (qti qtype).Next.1.toNat ∈ (if qtype = qtype then (qti qtype).Next.2 else qti qtype)
    rw [if_pos rfl]
    exact hfresh.2.2.1
  · intro k
    rw [hqti]
    show qti k ⊆ (if k = qtype then (qti qtype).Next.2 else qti k)
    by_cases hk : k = qtype
    · subst hk
      rw [if_pos rfl]
      exact hfresh.2.2.2
    · rw [if_neg hk]
  · intro qti2 hsub
    have hmem : (QemuTypeIndex.Next qti qtype).1.toNat ∈ qti2 qtype := by
      apply hsub qtype
      rw [hqti]
      show (qti qtype).Next.1.toNat ∈ (if qtype = qtype then (qti qtype).Next.2 else qti qtype)
      rw [if_pos rfl]
      exact hfresh.2.2.1
    have hfresh2 := QemuIndex.Next_fresh (qti2 qtype)
    have hq2 : QemuTypeIndex.Next qti2 qtype =
        ((qti2 qtype).Next.1, fun k => if k = qtype then (qti2 qtype).Next.2 else qti2 k) := by
      unfold QemuTypeIndex.Next
      rw [if_neg hq]
    intro heq
    apply hfresh2.2.1
    have h2 : (qti2 qtype).Next.1 = (QemuTypeIndex.Next qti qtype).1 := by
      rw [hq2] at heq
      exact heq
    rw [h2]
    exact hmem

/-- Witness for the amended C8 theorem: in a fresh registry, `Next "drive"`
returns 0, and a second `Next "drive"` on the resulting registry returns a
different index. -/
theorem C8_Next_fresh_and_monotone_witness :
    (QemuTypeIndex.Next NewQemuTypeIndex "drive").1 = 0 ∧
    (QemuTypeIndex.Next (QemuTypeIndex.Next NewQemuTypeIndex "drive").2 "drive").1 ≠
      (QemuTypeIndex.Next NewQemuTypeIndex "drive").1 := by
  have h := C8_Next_fresh_and_monotone NewQemuTypeIndex "drive" (by decide)
  exact ⟨h.1 rfl, h.2.2.2.2.2.2 _ (fun k => Finset.Subset.refl _)⟩

/-! ## Device-model constants (device.go and friends)

Go `DeviceDriver`, `VirtioTransport`, `CharDeviceBackend`, `NetDeviceType`
and the machine/TPM/RTC constants are string types; they are modelled as
plain strings. -/

def TransportPCI : String := "pci"
def TransportCCW : String := "ccw"
def TransportMMIO : String := "mmio"

def LegacySerial : String := "serial"
def VirtioBlock : String := "virtio-blk"
def IDECDROM : String := "ide-cd"
def SCSIHD : String := "scsi-hd"
def VirtioSerial : String := "virtio-serial"
def VirtioRng : String := "virtio-rng"
def PCIeRootPort : String := "pcie-root-port"
def PCISerialDevice : String := "pci-serial"
def VirtioNet : String := "virtio-net"

def Socket : String := "socket"
def Stdio : String := "stdio"
def FileBackend : String := "file"

def USER : String := "user"
def MCASTSOCKET : String := "mcastsocket"
def TAP : String := "tap"
def MACVTAP : String := "macvtap"
def IPVTAP : String := "ipvtap"
def VETHTAP : String := "vethtap"
def VFIO : String := "VFIO"
def VHOSTUSER : String := "vhostuser"

def MachineTypeMicrovm : String := "microvm"

def TPMEmulatorDevice : String := "emulator"
def TPMPassthroughDevice : String := "passthrough"

def RTCClockHost : String := "host"
def RTCClockRT : String := "rt"
def RTCClockVM : String := "vm"
def RTCSlew : String := "slew"
def RTCNoDriftFix : String := "none"

def UnixSocketType : String := "unix"

def MigrationFD : Int := 1
def MigrationExec : Int := 2
def MigrationDefer : Int := 3

def EmptyPortRule : String := "::0-:0"

def SpiceSerialNamespace : String := "com.redhat.spice.0"
def SpiceCharDevDriver : String := "spicevmc"
def SpiceCharDevName : String := "vdagent"

/-- Opaque host file handle (`*os.File`): only how many are attached is ever
observable in the assembled command line. -/
abbrev OSFile : Type := Unit

/-! ## Data structures (field-for-field from the Go structs; `Type` fields
are spelt `Type'` because `Type` is reserved in Lean) -/

structure Machine where
  Type' : String := ""
  Acceleration : String := ""
  Options : String := ""
  SMM : String := ""
  KernelIRQChip : String := ""
  VMPort : String := ""
  KVMShadowMemSizeBytes : Int := 0
  DumpGuestCore : String := ""
  MemoryMerge : String := ""
  IGDPassthrough : String := ""
  AESKeyWrap : String := ""
  DEAKeyWrap : String := ""
  SuppressVMDescription : String := ""
  NVDIMM : String := ""
  EnforceConfigSection : String := ""
deriving DecidableEq

structure SMP where
  CPUs : Nat := 0
  Cores : Nat := 0
  Threads : Nat := 0
  Sockets : Nat := 0
  MaxCPUs : Nat := 0
deriving DecidableEq

structure Memory where
  Size : String := ""
  Slots : Nat := 0
  MaxMem : String := ""
  Path : String := ""
deriving DecidableEq

structure Kernel where
  Path : String := ""
  InitrdPath : String := ""
  Params : String := ""
deriving DecidableEq

structure Knobs where
  NoUserConfig : Bool := false
  NoDefaults : Bool := false
  NoGraphic : Bool := false
  Daemonize : Bool := false
  HugePages : Bool := false
  MemPrealloc : Bool := false
  FileBackedMem : Bool := false
  MemShared : Bool := false
  Mlock : Bool := false
  Stopped : Bool := false
  NoReboot : Bool := false
  NoShutdown : Bool := false
  IOMMUPlatform : Bool := false
  NoHPET : Bool := false
  Snapshot : Bool := false
deriving DecidableEq

structure IOThread where
  ID : String := ""
deriving DecidableEq

structure Incoming where
  MigrationType : Int := 0
  FD : Option OSFile := none
  Exec : String := ""
deriving DecidableEq

structure RTC where
  Base : String := ""
  Clock : String := ""
  DriftFix : String := ""
deriving DecidableEq

structure FwCfg where
  Name : String := ""
  File : String := ""
  Str : String := ""
deriving DecidableEq

structure QMPSocket where
  Type' : String := ""
  Name : String := ""
  Server : Bool := false
  NoWait : Bool := false
deriving DecidableEq

structure SMTableBIOS where
  Vendor : String := ""
  Version : String := ""
  Date : String := ""
  Release : String := ""
  UEFI : String := ""
deriving DecidableEq

structure SMTableSystem where
  Manufacturer : String := ""
  Product : String := ""
  Version : String := ""
  Serial : String := ""
  UUID : String := ""
  SKU : String := ""
  Family : String := ""
deriving DecidableEq

structure SMTableBaseboard where
  Manufacturer : String := ""
  Product : String := ""
  Version : String := ""
  Serial : String := ""
  Asset : String := ""
  Location : String := ""
deriving DecidableEq

structure SMTableChassis where
  Manufacturer : String := ""
  Version : String := ""
  Serial : String := ""
  Asset : String := ""
  SKU : String := ""
deriving DecidableEq

structure SMTableProcessor where
  SocketPrefix : String := ""
  Manufacturer : String := ""
  Version : String := ""
  Serial : String := ""
  Asset : String := ""
  Part : String := ""
deriving DecidableEq

structure SMTableMemory where
  LocationPrefix : String := ""
  Bank : String := ""
  Manufacturer : String := ""
  Serial : String := ""
  Asset : String := ""
  Part : String := ""
  Speed : String := ""
deriving DecidableEq

structure SMBIOSInfo where
  File : String := ""
  BIOS : SMTableBIOS := {}
  System : SMTableSystem := {}
  Baseboard : SMTableBaseboard := {}
  Chassis : SMTableChassis := {}
  Processors : List SMTableProcessor := []
  Memory : List SMTableMemory := []
deriving DecidableEq

structure SpiceDevice where
  ID : String := ""
  Port : String := ""
  HostAddress : String := ""
  TLSPort : String := ""
  DisableTicketing : Bool := false
deriving DecidableEq

structure TPMDevice where
  ID : String := ""
  Driver : String := ""
  Type' : String := ""
  Path : String := ""
deriving DecidableEq

structure RngDevice where
  ID : String := ""
  Driver : String := ""
  Bus : String := ""
  Addr : String := ""
  Filename : String := ""
  MaxBytes : Nat := 0
  Period : Nat := 0
  ROMFile : String := ""
  DevNo : String := ""
  Transport : String := ""
deriving DecidableEq

structure BlockDevice where
  Driver : String := ""
  ID : String := ""
  File : String := ""
  Interface : String := ""
  AIO : String := ""
  Format : String := ""
  SCSI : Bool := false
  WCE : Bool := false
  BootIndex : Option Int := none
  Media : String := ""
  BlockSize : Int := 0
  RotationRate : Int := 0
  BusAddr : String := ""
  Bus : String := ""
  Serial : String := ""
  Cache : String := ""
  DisableModern : Bool := false
  ROMFile : String := ""
  DevNo : String := ""
  ShareRW : Bool := false
  ReadOnly : Bool := false
  Transport : String := ""
  Discard : String := ""
  DetectZeroes : String := ""
  DriveOnly : Bool := false
deriving DecidableEq

structure NetDeviceTap where
  IFName : String := ""
  DownScript : String := ""
  Script : String := ""
deriving DecidableEq

structure GuestPort where
  Address : String := ""
  Port : Int := 0
deriving DecidableEq

structure PortRule where
  Protocol : String := ""
  Host : GuestPort := {}
  Guest : GuestPort := {}
deriving DecidableEq

structure NetDeviceUser where
  IPV4 : Bool := false
  IPV4NetAddr : String := ""
  HostForward : List PortRule := []
deriving DecidableEq

structure NetDeviceMcastSocket where
  Address : String := ""
  Port : String := ""
deriving DecidableEq

structure NetDevice where
  Type' : String := ""
  Driver : String := ""
  ID : String := ""
  Bus : String := ""
  Addr : String := ""
  FDs : List OSFile := []
  VhostFDs : List OSFile := []
  VHost : Bool := false
  MACAddress : String := ""
  DisableModern : Bool := false
  ROMFile : String := ""
  DevNo : String := ""
  Transport : String := ""
  Tap : NetDeviceTap := {}
  User : NetDeviceUser := {}
  McastSocket : NetDeviceMcastSocket := {}
  BootIndex : String := ""
deriving DecidableEq

structure CharDevice where
  Backend : String := ""
  Driver : String := ""
  Bus : String := ""
  DeviceID : String := ""
  ID : String := ""
  Path : String := ""
  Name : String := ""
  DisableModern : Bool := false
  ROMFile : String := ""
  DevNo : String := ""
  Transport : String := ""
  Mux : String := ""
  Signal : String := ""
deriving DecidableEq

structure LegacySerialDevice where
  ChardevID : String := ""
  Name : String := ""
  MonMux : Bool := false
  Backend : String := ""
  Path : String := ""
deriving DecidableEq

structure SerialDevice where
  Driver : String := ""
  ID : String := ""
  Addr : String := ""
  ROMFile : String := ""
  MaxPorts : Nat := 0
  Multifunction : Bool := false
  DisableModern : Bool := false
  DevNo : String := ""
  Transport : String := ""
  ChardevIDs : List String := []
deriving DecidableEq

structure MonitorDevice where
  Name : String := ""
  ChardevID : String := ""
  Backend : String := ""
  Path : String := ""
deriving DecidableEq

structure PCIeRootPortDevice where
  ID : String := ""
  Bus : String := ""
  Chassis : String := ""
  Slot : String := ""
  Port : String := ""
  Multifunction : Bool := false
  Addr : String := ""
  BusReserve : String := ""
  Pref64Reserve : String := ""
  Pref32Reserve : String := ""
  MemReserve : String := ""
  IOReserve : String := ""
  ROMFile : String := ""
  Transport : String := ""
deriving DecidableEq

structure UEFIFirmwareDevice where
  Code : String := ""
  Vars : String := ""
deriving DecidableEq

structure SCSIControllerDevice where
  ID : String := ""
  Bus : String := ""
  Addr : String := ""
  DisableModern : Bool := false
  IOThread : String := ""
  IOThreadPoll : Int := 0
  IOThreadMaxNS : Int := 0
  IOThreadShrink : Int := 0
  ROMFile : String := ""
  DevNo : String := ""
  Transport : String := ""
deriving DecidableEq

structure IDEControllerDevice where
  ID : String := ""
  Driver : String := ""
  Bus : String := ""
  Addr : String := ""
  FailoverPairID : String := ""
  ROMFile : String := ""
  ROMBar : String := ""
  Multifunction : Bool := false
  XPCIELinkStateDLLLA : Bool := false
  XPCIeExternalCapInit : Bool := false
  CommandSerrEnable : Bool := false
deriving DecidableEq

structure USBControllerDevice where
  ID : String := ""
  Driver : String := ""
  Addr : String := ""
  FailoverPairID : String := ""
  ROMFile : String := ""
  ROMBar : String := ""
  Multifunction : Bool := false
  XPCIELinkStateDLLLA : Bool := false
  XPCIeExternalCapInit : Bool := false
  CommandSerrEnable : Bool := false
deriving DecidableEq

/-- The `Device` interface: the closed set of device kinds that can appear in
`config.devices`. -/
inductive Device where
  | blk (d : BlockDevice)
  | char (d : CharDevice)
  | legacySerial (d : LegacySerialDevice)
  | monitor (d : MonitorDevice)
  | net (d : NetDevice)
  | rng (d : RngDevice)
  | serial (d : SerialDevice)
  | uefi (d : UEFIFirmwareDevice)
  | pcieRootPort (d : PCIeRootPortDevice)
  | scsiController (d : SCSIControllerDevice)
  | ideController (d : IDEControllerDevice)
  | usbController (d : USBControllerDevice)
  | spice (d : SpiceDevice)
  | tpm (d : TPMDevice)
deriving DecidableEq

/-- `type Config struct` (qemu.go).  `Ctx context.Context` is omitted: no
assembled token depends on it.  `devices`, `fds`, `pciBusSlots` and
`qemuParams` are the unexported mutable fields. -/
structure Config where
  Path : String := ""
  StateDir : String := ""
  Uid : Nat := 0
  Gid : Nat := 0
  Groups : List Nat := []
  Name : String := ""
  UUID : String := ""
  CPUModel : String := ""
  CPUModelFlags : List String := []
  SeccompSandbox : String := ""
  Machine : Machine := {}
  SMBIOS : SMBIOSInfo := {}
  QMPSockets : List QMPSocket := []
  devices : List Device := []
  RngDevices : List RngDevice := []
  BlkDevices : List BlockDevice := []
  NetDevices : List NetDevice := []
  CharDevices : List CharDevice := []
  LegacySerialDevices : List LegacySerialDevice := []
  SerialDevices : List SerialDevice := []
  MonitorDevices : List MonitorDevice := []
  PCIeRootPortDevices : List PCIeRootPortDevice := []
  UEFIFirmwareDevices : List UEFIFirmwareDevice := []
  SCSIControllerDevices : List SCSIControllerDevice := []
  IDEControllerDevices : List IDEControllerDevice := []
  USBControllerDevices : List USBControllerDevice := []
  RTC : RTC := {}
  VGA : String := ""
  SpiceDevice : SpiceDevice := {}
  TPM : TPMDevice := {}
  Kernel : Kernel := {}
  Memory : Memory := {}
  SMP : SMP := {}
  GlobalParams : List String := []
  Knobs : Knobs := {}
  Bios : String := ""
  PFlash : List String := []
  Incoming : Incoming := {}
  fds : List OSFile := []
  FwCfg : List FwCfg := []
  IOThreads : List IOThread := []
  PidFile : String := ""
  LogFile : String := ""
  pciBusSlots : PCIBus := emptyPCIBus
  qemuParams : List String := []

/-! ## Transport resolution (qemu.go / VirtioTransport) -/

/-- `func (transport VirtioTransport) defaultTransport(config *Config)`.
`runtime.GOARCH` is passed in as `goarch`; `config` may be nil. -/
def defaultTransport (transport : String) (goarch : String)
    (config : Option Config) : String :=
  if goarch = "amd64" ∨ goarch = "386" then
    match config with
    | some c => if c.Machine.Type' = MachineTypeMicrovm then TransportMMIO else TransportPCI
    | none => TransportPCI
  else if goarch = "s390x" then
    TransportCCW
  else
    TransportPCI

/-- `func (transport VirtioTransport) isVirtioPCI(config *Config) bool` -/
def isVirtioPCI (transport : String) (goarch : String) (config : Option Config) : Bool :=
  let transport := if transport = "" then defaultTransport transport goarch config else transport
  transport = TransportPCI

/-- `func (transport VirtioTransport) isVirtioCCW(config *Config) bool` -/
def isVirtioCCW (transport : String) (goarch : String) (config : Option Config) : Bool :=
  let transport := if transport = "" then defaultTransport transport goarch config else transport
  transport = TransportCCW

/-- `func (transport VirtioTransport) getName(config *Config) string` -/
def getTransportName (transport : String) (goarch : String) (config : Option Config) : String :=
  if transport = "" then defaultTransport transport goarch config else transport

/-- `func (transport VirtioTransport) disableModern(config *Config, disable bool) string` -/
def disableModern (transport : String) (goarch : String) (config : Option Config)
    (disable : Bool) : String :=
  if ¬ isVirtioPCI transport goarch config then ""
  else if disable then "disable-modern=true"
  else "disable-modern=false"

/-- `func getConfigOnOff(paramName, paramKey, paramVal string) string`:
`log.Fatalf` on any value other than "on"/"off". -/
def getConfigOnOff (paramName paramKey paramVal : String) : GoOut String :=
  if paramVal ≠ "" then
    if paramVal = "on" ∨ paramVal = "off" then
      .ret (paramKey ++ "=" ++ paramVal)
    else
      .fatal ("Invalid " ++ paramName ++ " value: must be one of on, off")
  else .ret ""

/-- `var VirtioBlockTransport = map[VirtioTransport]string{...}`; a missing
key yields the zero value "". -/
def VirtioBlockTransport (t : String) : String :=
  if t = TransportPCI then "virtio-blk-pci"
  else if t = TransportCCW then "virtio-blk-ccw"
  else if t = TransportMMIO then "virtio-blk-device"
  else ""

/-- `var SCSIControllerTransport = map[VirtioTransport]string{...}` -/
def SCSIControllerTransport (t : String) : String :=
  if t = TransportPCI then "virtio-scsi-pci"
  else if t = TransportCCW then "virtio-scsi-ccw"
  else if t = TransportMMIO then "virtio-scsi-device"
  else ""

/-- `var VirtioSerialTransport = map[VirtioTransport]string{...}` -/
def VirtioSerialTransport (t : String) : String :=
  if t = TransportPCI then "virtio-serial-pci"
  else if t = TransportCCW then "virtio-serial-ccw"
  else if t = TransportMMIO then "virtio-serial-device"
  else ""

/-! ## Device validation (each Go `Valid() error`; `some msg` = error) -/

def BlockDevice.Valid (blkdev : BlockDevice) : Option String :=
  if blkdev.ID = "" then some "BlockDevice missing ID"
  else if blkdev.Driver = "" then some ("BlockDevice ID=" ++ blkdev.ID ++ " missing Driver")
  else if blkdev.File = "" then some ("BlockDevice ID=" ++ blkdev.ID ++ " missing File")
  else if blkdev.Interface = "" then
    some ("BlockDevice ID=" ++ blkdev.ID ++ " missing Interface")
  else if blkdev.Format = "" then some ("BlockDevice ID=" ++ blkdev.ID ++ " missing Format")
  else if blkdev.RotationRate > 0 ∧ blkdev.Driver.startsWith "virtio" then
    some ("BlockDevice ID=" ++ blkdev.ID ++ " with RotationRate cannot be Driver=virtio*")
  else none

/-- The Go message ends with a `%+v` dump of the whole struct, which is not
reproduced; only the fixed prefix is modelled. -/
def CharDevice.Valid (cdev : CharDevice) : Option String :=
  if cdev.ID = "" then some "CharDevice missing ID value"
  else if cdev.Backend ≠ Stdio ∧ cdev.Path = "" then
    some ("CharDevice with Backend=" ++ cdev.Backend ++ " must have Path")
  else none

def LegacySerialDevice.Valid (dev : LegacySerialDevice) : Option String :=
  if dev.MonMux then none
  else if dev.Backend = "" then
    if dev.Name = "" ∧ dev.ChardevID = "" then
      some "LegacySerialDevice requires either Name or ChardevID field to be set"
    else if dev.Name ≠ "" ∧ dev.ChardevID ≠ "" then
      some "LegacySerialDevice Name and ChardevID field are mutually exclusive"
    else none
  else
    if dev.Backend ≠ Socket then
      some "LegacySerialDevice only supports Backend='unix'"
    else if dev.Path = "" then
      some "LegacySerialDevice with Backend must have Path"
    else none

def SerialDevice.Valid (dev : SerialDevice) : Option String :=
  if dev.Driver = "" then some "SerialDevice has empty Driver field"
  else if dev.ID = "" then some "SerialDevice has empty ID field"
  else if dev.Driver = PCISerialDevice then
    if dev.ChardevIDs.length > 4 ∨ dev.ChardevIDs.length = 0 then
      some "PCISerialDeviceDevice has a malformed list of ChardevIDs (length 0 or length > 4)"
    else if dev.ChardevIDs.headD "" = "" then
      some "PCISerialDeviceDevice has no associated ChardevID"
    else if dev.MaxPorts ≠ 1 ∧ dev.MaxPorts ≠ 2 ∧ dev.MaxPorts ≠ 4 then
      some "PCISerialDeviceDevice has MaxPorts not equal to 1, 2, or 4"
    else none
  else none

def MonitorDevice.Valid (dev : MonitorDevice) : Option String :=
  if dev.Backend = "" then
    if dev.Name = "" ∧ dev.ChardevID = "" then
      some "MonitorDevice requires either Name or ChardevID field to be set"
    else if dev.Name ≠ "" ∧ dev.ChardevID ≠ "" then
      some "MonitorDevice Name and ChardevID field are mutually exclusive"
    else none
  else
    if dev.Backend ≠ Socket then
      some "MonitorDevice only supports Backend='unix'"
    else if dev.Path = "" then
      some "MonitorDevice with Backend must have Path"
    else none

def NetDevice.Valid (netdev : NetDevice) : Option String :=
  if netdev.ID = "" then some "NetDevice has empty ID field"
  else if netdev.Type' = "" then some "NetDevice has empty Type field"
  else if ¬ (netdev.Type' = USER ∨ netdev.Type' = MCASTSOCKET ∨ netdev.Type' = TAP ∨
      netdev.Type' = MACVTAP) then
    some ("NetDevice has Unknown Type value: " ++ netdev.Type')
  else if netdev.Type' = TAP ∧ netdev.Tap.IFName = "" then
    some "Netdevice Type=TAP has empty IFName field"
  else if netdev.Type' = MCASTSOCKET ∧ netdev.McastSocket.Address = "" then
    some "Netdevice Type=MCASTSOCKET has empty Address field"
  else if netdev.Type' = MCASTSOCKET ∧ netdev.McastSocket.Port = "" then
    some "Netdevice Type=MCASTSOCKET has empty Port field"
  else none

def RngDevice.Valid (r : RngDevice) : Option String :=
  if r.ID = "" then some "RngDevice has empty ID field"
  else if r.Driver = "" then some "RngDevice has empty Driver field"
  else none

def UEFIFirmwareDevice.Valid (u : UEFIFirmwareDevice) : Option String :=
  if u.Code = "" then some "UEFIFirmwareDevice has empty Code field"
  else if u.Vars = "" then some "UEFIFirmwareDevice has empty Vars field"
  else none

def PCIeRootPortDevice.Valid (b : PCIeRootPortDevice) : Option String :=
  if b.Pref64Reserve ≠ "" ∧ b.Pref32Reserve ≠ "" then
    some "PCIeRootPortDevice Pref64Reserve and Pref32Reserve are mutually exclusive"
  else if b.ID = "" then some "PCIeRootPortDevice has empty ID field"
  else none

def SCSIControllerDevice.Valid (scsiCon : SCSIControllerDevice) : Option String :=
  if scsiCon.ID = "" then some "SCSIController has empty ID field"
  else none

def IDEControllerDevice.Valid (ideCon : IDEControllerDevice) : Option String :=
  if ideCon.ID = "" then some "IDEController has empty ID field"
  else if ideCon.Driver = "" then some "IDEController has empty Driver field"
  else none

def USBControllerDevice.Valid (usbCon : USBControllerDevice) : Option String :=
  if usbCon.ID = "" then some "USBController has empty ID field"
  else if usbCon.Driver = "" then some "USBController has empty Driver field"
  else none

def SpiceDevice.Valid (dev : SpiceDevice) : Option String :=
  if dev.Port = "" ∧ dev.TLSPort = "" then
    some "SpiceDevice Port or TLSPort value is required"
  else if dev.Port ≠ "" ∧ dev.TLSPort ≠ "" then
    some "SpiceDevice has Port and TLSPort set, only one allowed"
  else none

def TPMDevice.Valid (tpm : TPMDevice) : Option String :=
  if tpm.ID = "" then some "TPM device ID is not set"
  else if tpm.Driver = "" then some "TPM device Driver is not set"
  else if tpm.Path = "" then some "TPM device Path is not set"
  else if tpm.Type' = "" then some "TPM device Type is not set"
  else if ¬ (tpm.Type' = TPMEmulatorDevice ∨ tpm.Type' = TPMPassthroughDevice) then
    some ("TPM device Type " ++ tpm.Type' ++ " is unknown")
  else none

def QMPSocket.Valid (qmp : QMPSocket) : Option String :=
  if qmp.Type' = "" then some "QMPSocket has empty Type field"
  else if qmp.Name = "" then some "QMPSocket has empty Name field"
  else if qmp.Type' ≠ UnixSocketType then
    some ("QMPSocket has invalid Type field: " ++ qmp.Type')
  else none

/-- Front-parse of an optional sign and at least one decimal digit, as the
`%d` verb of `fmt.Sscanf` consumes it (leading-space skipping is not
modelled; no caller of interest has leading spaces). -/
def scanIntFrom : List Char → Option (List Char)
  | [] => none
  | '+' :: rest => scanDigitsFrom rest
  | '-' :: rest => scanDigitsFrom rest
  | l => scanDigitsFrom l
where
  scanDigitsFrom : List Char → Option (List Char)
    | [] => none
    | c :: cs =>
      if '0' ≤ c ∧ c ≤ '9' then some (scanMore cs)
      else none
  scanMore : List Char → List Char
    | [] => []
    | c :: cs => if '0' ≤ c ∧ c ≤ '9' then scanMore cs else c :: cs

/-- Success of `fmt.Sscanf(s, "%d.%d", ...)`. -/
def sscanfTwoInts (str : String) : Bool :=
  match scanIntFrom str.data with
  | none => false
  | some rest =>
    match rest with
    | '.' :: rest2 => (scanIntFrom rest2).isSome
    | _ => false

/-- Success of `fmt.Sscanf(s, "%d", ...)`. -/
def sscanfOneInt (str : String) : Bool :=
  (scanIntFrom str.data).isSome

def SMTableBIOS.Valid (table : SMTableBIOS) : Option String :=
  if table.Release ≠ "" ∧ ¬ sscanfTwoInts table.Release then
    some "SMTableBIOS Type=0 Release field is not in <digit>.<digit> format"
  else if table.UEFI ≠ "" ∧ ¬ (table.UEFI.toLower = "on" ∨ table.UEFI.toLower = "off") then
    some ("SMTableBIOS Type=0 UEFI field is not on or off: " ++ table.UEFI)
  else none

def SMTableSystem.Valid (_ : SMTableSystem) : Option String := none

def SMTableBaseboard.Valid (_ : SMTableBaseboard) : Option String := none

def SMTableChassis.Valid (_ : SMTableChassis) : Option String := none

def SMTableProcessor.Valid (_ : SMTableProcessor) : Option String := none

def SMTableMemory.Valid (table : SMTableMemory) : Option String :=
  if table.Speed ≠ "" ∧ ¬ sscanfOneInt table.Speed then
    some ("SMTableMemory Type=17 Speed field must be a number, found: " ++ table.Speed)
  else none

def firstSomeOf : List (Option String) → Option String
  | [] => none
  | some e :: _ => some e
  | none :: rest => firstSomeOf rest

/-- `func (smb SMBIOSInfo) Valid() error`: first failing sub-table wins. -/
def SMBIOSInfo.Valid (smb : SMBIOSInfo) : Option String :=
  firstSomeOf
    ([smb.BIOS.Valid, smb.System.Valid, smb.Baseboard.Valid, smb.Chassis.Valid] ++
      smb.Processors.map SMTableProcessor.Valid ++
      smb.Memory.map SMTableMemory.Valid)

def TPMTISDevice : String := "tpm-tis"

/-! ## Device rendering (each Go `QemuParams(config *Config) []string`).

Every renderer returns its tokens together with the (possibly updated)
`Config`: the Go methods receive `*Config` and the block/RNG/controller
renderers mutate `config.pciBusSlots` through `GetSlot`, while the network
renderer appends to `config.fds`.  A `fatal` result models a runtime panic
or `log.Fatalf` inside the renderer. -/

def goJoin (l : List String) : String := String.intercalate "," l

/-- Go list indexing `l[i]` with its runtime bounds check. -/
def goIndex (l : List String) (i : Nat) : GoOut String :=
  if h : i < l.length then .ret (l.get ⟨i, h⟩)
  else .fatal "runtime error: index out of range"

def BlockDevice.deviceName (goarch : String) (blkdev : BlockDevice) (config : Config) :
    String :=
  let transport := if blkdev.Transport = "" then
      defaultTransport blkdev.Transport goarch (some config)
    else blkdev.Transport
  if blkdev.Driver = VirtioBlock then VirtioBlockTransport transport
  else blkdev.Driver

def RngDevice.deviceName (goarch : String) (r : RngDevice) (config : Config) : String :=
  let transport := if r.Transport = "" then
      defaultTransport r.Transport goarch (some config)
    else r.Transport
  if r.Driver ≠ VirtioRng then r.Driver
  else if transport = TransportPCI then "virtio-rng-pci"
  else if transport = TransportCCW then "virtio-rng-ccw"
  else if transport = TransportMMIO then "virtio-rng-device"
  else ""

def SCSIControllerDevice.deviceName (goarch : String) (scsiCon : SCSIControllerDevice)
    (config : Config) : String :=
  let transport := if scsiCon.Transport = "" then
      defaultTransport scsiCon.Transport goarch (some config)
    else scsiCon.Transport
  SCSIControllerTransport transport

def IDEControllerDevice.deviceName (ideCon : IDEControllerDevice) : String := ideCon.Driver

def USBControllerDevice.deviceName (usbCon : USBControllerDevice) : String := usbCon.Driver

def SerialDevice.deviceName (goarch : String) (dev : SerialDevice) (config : Config) :
    String :=
  let fromVirtio :=
    if dev.Driver = VirtioSerial then
      let transport := if dev.Transport = "" then
          defaultTransport dev.Transport goarch (some config)
        else dev.Transport
      VirtioSerialTransport transport
    else ""
  if dev.Driver = PCISerialDevice then
    let addStr := if dev.MaxPorts = 2 then "-2x" else if dev.MaxPorts = 4 then "-4x" else ""
    dev.Driver ++ addStr
  else fromVirtio

def CharDevice.deviceName (goarch : String) (cdev : CharDevice) (config : Config) : String :=
  let transport := if cdev.Transport = "" then
      defaultTransport cdev.Transport goarch (some config)
    else cdev.Transport
  if cdev.Driver = VirtioSerial then VirtioSerialTransport transport
  else cdev.Driver

def TPMDevice.deviceName (goarch : String) (tpm : TPMDevice) : String :=
  if tpm.Driver = TPMTISDevice ∧ (goarch = "aarch64" ∨ goarch = "arm64") then
    tpm.Driver ++ "-device"
  else tpm.Driver

def BlockDevice.QemuParams (goarch : String) (blkdev : BlockDevice) (config : Config) :
    GoOut (List String × Config) := do
  let driveParams := ["file=" ++ blkdev.File, "id=" ++ blkdev.ID,
    "if=" ++ blkdev.Interface, "format=" ++ blkdev.Format]
  let driveParams := driveParams ++ (if blkdev.AIO ≠ "" then ["aio=" ++ blkdev.AIO] else [])
  let driveParams := driveParams ++
    (if blkdev.Cache ≠ "" then ["cache=" ++ blkdev.Cache] else [])
  let driveParams := driveParams ++
    (if blkdev.Discard ≠ "" then ["discard=" ++ blkdev.Discard] else [])
  let driveParams := driveParams ++
    (if blkdev.DetectZeroes ≠ "" then ["detect-zeroes=" ++ blkdev.DetectZeroes] else [])
  let driveParams := driveParams ++
    (if blkdev.Media ≠ "" then ["media=" ++ blkdev.Media] else [])
  let driveParams := driveParams ++ (if blkdev.ReadOnly then ["readonly=on"] else [])
  let qemuParams := ["-drive", goJoin driveParams]
  if blkdev.DriveOnly then
    return (qemuParams, config)
  else
    let deviceParams := [BlockDevice.deviceName goarch blkdev config, "drive=" ++ blkdev.ID]
    let deviceParams := deviceParams ++
      (if blkdev.Serial ≠ "" then ["serial=" ++ blkdev.Serial] else ["serial=" ++ blkdev.ID])
    let deviceParams := deviceParams ++
      (match blkdev.BootIndex with
       | some bi => ["bootindex=" ++ toString bi]
       | none => [])
    let step ← (if blkdev.Driver = VirtioBlock then do
        let dp := deviceParams ++
          (if disableModern blkdev.Transport goarch (some config) blkdev.DisableModern ≠ ""
           then [disableModern blkdev.Transport goarch (some config) blkdev.DisableModern]
           else [])
        let rs ← PCIBus.GetSlot config.pciBusSlots blkdev.BusAddr
        let addr := rs.1
        let config := { config with pciBusSlots := rs.2 }
        let dp := dp ++
          (if addr > 0 then
            ["addr=0x" ++ sprintfHex02 addr,
             "bus=" ++ (if blkdev.Bus ≠ "" then blkdev.Bus else "pcie.0")]
           else [])
        return (dp, config)
      else
        return (deviceParams, config) : GoOut (List String × Config))
    let deviceParams := step.1
    let config := step.2
    let deviceParams := deviceParams ++
      (if blkdev.Driver = SCSIHD ∧ blkdev.Bus ≠ "" then ["bus=" ++ blkdev.Bus] else [])
    let deviceParams := deviceParams ++
      (if blkdev.Driver = IDECDROM then
        ["bus=" ++ (if blkdev.Bus ≠ "" then blkdev.Bus else "ide.0")]
       else [])
    let deviceParams := deviceParams ++
      (if blkdev.RotationRate > 0 ∧ ¬ blkdev.Driver.startsWith "virtio" then
        ["rotation_rate=" ++ toString blkdev.RotationRate]
       else [])
    let deviceParams := deviceParams ++
      (if blkdev.BlockSize > 0 then
        ["logical_block_size=" ++ toString blkdev.BlockSize,
         "physical_block_size=" ++ toString blkdev.BlockSize]
       else [])
    let deviceParams := deviceParams ++
      (if ¬ blkdev.SCSI ∧ blkdev.Driver ≠ IDECDROM then ["scsi=off"] else [])
    let deviceParams := deviceParams ++
      (if ¬ blkdev.WCE ∧ blkdev.Driver = VirtioBlock then ["config-wce=off"] else [])
    let deviceParams := deviceParams ++
      (if isVirtioPCI blkdev.Transport goarch (some config) ∧ blkdev.ROMFile ≠ "" then
        ["romfile=" ++ blkdev.ROMFile]
       else [])
    let deviceParams := deviceParams ++
      (if isVirtioCCW blkdev.Transport goarch (some config) then
        ["devno=" ++ blkdev.DevNo]
       else [])
    let deviceParams := deviceParams ++ (if blkdev.ShareRW then ["share-rw=on"] else [])
    return (qemuParams ++ ["-device", goJoin deviceParams], config)

def RngDevice.QemuParams (goarch : String) (r : RngDevice) (config : Config) :
    GoOut (List String × Config) := do
  let objectParams := ["rng-random", "id=" ++ r.ID]
  let deviceParams := [RngDevice.deviceName goarch r config, "rng=" ++ r.ID]
  let deviceParams := deviceParams ++ (if r.Bus ≠ "" then ["bus=" ++ r.Bus] else [])
  let rs ← PCIBus.GetSlot config.pciBusSlots r.Addr
  let addr := rs.1
  let config := { config with pciBusSlots := rs.2 }
  let deviceParams := deviceParams ++
    (if addr > 0 then ["addr=0x" ++ sprintfHex02 addr] else [])
  let deviceParams := deviceParams ++
    (if isVirtioPCI r.Transport goarch (some config) ∧ r.ROMFile ≠ "" then
      ["romfile=" ++ r.ROMFile]
     else [])
  let deviceParams := deviceParams ++
    (if isVirtioCCW r.Transport goarch (some config) then
      (if config.Knobs.IOMMUPlatform then ["iommu_platform=on"] else []) ++
        ["devno=" ++ r.DevNo]
     else [])
  let objectParams := objectParams ++
    (if r.Filename ≠ "" then ["filename=" ++ r.Filename] else [])
  let deviceParams := deviceParams ++
    (if r.MaxBytes > 0 then ["max-bytes=" ++ toString r.MaxBytes] else [])
  let deviceParams := deviceParams ++
    (if r.Period > 0 then ["period=" ++ toString r.Period] else [])
  return (["-object", goJoin objectParams, "-device", goJoin deviceParams], config)

def SCSIControllerDevice.QemuParams (goarch : String) (scsiCon : SCSIControllerDevice)
    (config : Config) : GoOut (List String × Config) := do
  let driver := SCSIControllerDevice.deviceName goarch scsiCon config
  let deviceParams := [driver ++ ",id=" ++ scsiCon.ID]
  let rs ← PCIBus.GetSlot config.pciBusSlots scsiCon.Addr
  let addr := rs.1
  let config := { config with pciBusSlots := rs.2 }
  let deviceParams := deviceParams ++
    (if addr > 0 then
      ["addr=0x" ++ sprintfHex02 addr,
       "bus=" ++ (if scsiCon.Bus ≠ "" then scsiCon.Bus else "pcie.0")]
     else [])
  let deviceParams := deviceParams ++
    (if disableModern scsiCon.Transport goarch (some config) scsiCon.DisableModern ≠ "" then
      [disableModern scsiCon.Transport goarch (some config) scsiCon.DisableModern]
     else [])
  let deviceParams := deviceParams ++
    (if scsiCon.IOThread ≠ "" then ["iothread=" ++ scsiCon.IOThread] else [])
  let objectParams :=
    (if scsiCon.IOThread ≠ "" then
      ["iothread,poll-max-ns=32,id=" ++ scsiCon.IOThread]
     else [])
  let deviceParams := deviceParams ++
    (if isVirtioPCI scsiCon.Transport goarch (some config) ∧ scsiCon.ROMFile ≠ "" then
      ["romfile=" ++ scsiCon.ROMFile]
     else [])
  let deviceParams := deviceParams ++
    (if isVirtioCCW scsiCon.Transport goarch (some config) then
      (if config.Knobs.IOMMUPlatform then ["iommu_platform=on"] else []) ++
        ["devno=" ++ scsiCon.DevNo]
     else [])
  let qemuParams := ["-device", goJoin deviceParams]
  let qemuParams := qemuParams ++
    (if objectParams.length > 0 then ["-object", goJoin objectParams] else [])
  return (qemuParams, config)

def IDEControllerDevice.QemuParams (ideCon : IDEControllerDevice) (config : Config) :
    GoOut (List String × Config) := do
  let driver := IDEControllerDevice.deviceName ideCon
  let deviceParams := [driver ++ ",id=" ++ ideCon.ID]
  let rs ← PCIBus.GetSlot config.pciBusSlots ideCon.Addr
  let addr := rs.1
  let config := { config with pciBusSlots := rs.2 }
  let deviceParams := deviceParams ++
    (if addr > 0 then
      ["addr=0x" ++ sprintfHex02 addr,
       "bus=" ++ (if ideCon.Bus ≠ "" then ideCon.Bus else "pcie.0")]
     else [])
  let deviceParams := deviceParams ++
    (if ideCon.ROMFile ≠ "" then ["romfile=" ++ ideCon.ROMFile] else [])
  let deviceParams := deviceParams ++
    (if ideCon.ROMBar ≠ "" then ["rombar=" ++ ideCon.ROMBar] else [])
  let deviceParams := deviceParams ++ (if ideCon.Multifunction then ["multifunction=on"] else [])
  return (["-device", goJoin deviceParams], config)

def USBControllerDevice.QemuParams (usbCon : USBControllerDevice) (config : Config) :
    GoOut (List String × Config) := do
  let driver := USBControllerDevice.deviceName usbCon
  let deviceParams := [driver ++ ",id=" ++ usbCon.ID]
  let rs ← PCIBus.GetSlot config.pciBusSlots usbCon.Addr
  let addr := rs.1
  let config := { config with pciBusSlots := rs.2 }
  let deviceParams := deviceParams ++
    (if addr > 0 then ["addr=0x" ++ sprintfHex02 addr] else [])
  let deviceParams := deviceParams ++
    (if usbCon.ROMFile ≠ "" then ["romfile=" ++ usbCon.ROMFile] else [])
  let deviceParams := deviceParams ++
    (if usbCon.ROMBar ≠ "" then ["rombar=" ++ usbCon.ROMBar] else [])
  let deviceParams := deviceParams ++ (if usbCon.Multifunction then ["multifunction=on"] else [])
  return (["-device", goJoin deviceParams], config)

def PCIeRootPortDevice.QemuParams (goarch : String) (b : PCIeRootPortDevice)
    (config : Config) : GoOut (List String × Config) := do
  let driver := PCIeRootPort
  let deviceParams := [driver ++ ",id=" ++ b.ID]
  let bus := if b.Bus = "" then "pcie.0" else b.Bus
  let deviceParams := deviceParams ++ ["bus=" ++ bus]
  let chassis := if b.Chassis = "" then "0x00" else b.Chassis
  let deviceParams := deviceParams ++ ["chassis=" ++ chassis]
  let slot := if b.Slot = "" then "0x00" else b.Slot
  let deviceParams := deviceParams ++ ["slot=" ++ slot]
  let deviceParams := deviceParams ++ (if b.Port ≠ "" then ["port=" ++ b.Port] else [])
  let addr := if b.Addr = "" then "0x00" else b.Addr
  let deviceParams := deviceParams ++ ["addr=" ++ addr]
  let deviceParams := deviceParams ++
    (if b.Multifunction then ["multifunction=on"]
     else if ¬ addr.data.contains '.' then ["multifunction=off"]
     else [])
  let deviceParams := deviceParams ++
    (if b.BusReserve ≠ "" then ["bus-reserve=" ++ b.BusReserve] else [])
  let deviceParams := deviceParams ++
    (if b.Pref64Reserve ≠ "" then ["pref64-reserve=" ++ b.Pref64Reserve] else [])
  let deviceParams := deviceParams ++
    (if b.Pref32Reserve ≠ "" then ["pref32-reserve=" ++ b.Pref32Reserve] else [])
  let deviceParams := deviceParams ++
    (if b.MemReserve ≠ "" then ["mem-reserve=" ++ b.MemReserve] else [])
  let deviceParams := deviceParams ++
    (if b.IOReserve ≠ "" then ["io-reserve=" ++ b.IOReserve] else [])
  let deviceParams := deviceParams ++
    (if isVirtioPCI b.Transport goarch (some config) ∧ b.ROMFile ≠ "" then
      ["romfile=" ++ b.ROMFile]
     else [])
  return (["-device", goJoin deviceParams], config)

def UEFIFirmwareDevice.QemuParams (u : UEFIFirmwareDevice) (config : Config) :
    GoOut (List String × Config) := do
  let qemuParams :=
    (if u.Code ≠ "" then ["-drive", "if=pflash,format=raw,readonly,file=" ++ u.Code] else [])
  let qemuParams := qemuParams ++
    (if u.Vars ≠ "" then ["-drive", "if=pflash,format=raw,file=" ++ u.Vars] else [])
  return (qemuParams, config)

def LegacySerialDevice.QemuParams (dev : LegacySerialDevice) (config : Config) :
    GoOut (List String × Config) := do
  let sdevParams :=
    if dev.MonMux then ["mon:stdio"]
    else if dev.Backend = Socket then
      ["unix:" ++ dev.Path ++ ",server=on,wait=off"]
    else
      (if dev.Name ≠ "" ∧ dev.ChardevID = "" then [dev.Name] else []) ++
      (if dev.ChardevID ≠ "" ∧ dev.Name = "" then ["chardev:" ++ dev.ChardevID] else [])
  return (["-serial", goJoin sdevParams], config)

def SerialDevice.QemuParams (goarch : String) (dev : SerialDevice) (config : Config) :
    GoOut (List String × Config) := do
  let deviceParams := [SerialDevice.deviceName goarch dev config, "id=" ++ dev.ID]
  let deviceParams := deviceParams ++ (if dev.Addr ≠ "" then ["addr=" ++ dev.Addr] else [])
  let deviceParams := deviceParams ++
    (if dev.ROMFile ≠ "" ∧
        (dev.Driver = PCISerialDevice ∨ isVirtioPCI dev.Transport goarch (some config)) then
      ["romfile=" ++ dev.ROMFile]
     else [])
  let deviceParams := deviceParams ++ (if dev.Multifunction then ["multifunction=on"] else [])
  let deviceParams ← (if dev.Driver = VirtioSerial then do
      let dp := deviceParams ++
        (if disableModern dev.Transport goarch (some config) dev.DisableModern ≠ "" then
          [disableModern dev.Transport goarch (some config) dev.DisableModern]
         else [])
      let dp := dp ++
        (if isVirtioPCI dev.Transport goarch (some config) ∧ dev.MaxPorts ≠ 0 then
          ["max_ports=" ++ toString dev.MaxPorts]
         else [])
      let dp := dp ++
        (if isVirtioCCW dev.Transport goarch (some config) then
          (if config.Knobs.IOMMUPlatform then ["iommu_platform=on"] else []) ++
            ["devno=" ++ dev.DevNo]
         else [])
      pure dp
    else if dev.Driver = PCISerialDevice then
      if dev.MaxPorts = 1 then do
        let c0 ← goIndex dev.ChardevIDs 0
        pure (deviceParams ++ ["chardev=" ++ c0])
      else do
        let c0 ← goIndex dev.ChardevIDs 0
        let dp := deviceParams ++ ["chardev1=" ++ c0]
        let dp := dp ++
          (if h : 1 < dev.ChardevIDs.length then
            (if dev.ChardevIDs.get ⟨1, h⟩ ≠ "" then
              ["chardev2=" ++ dev.ChardevIDs.get ⟨1, h⟩]
             else [])
           else [])
        let dp := dp ++
          (if dev.MaxPorts = 4 then
            (if h : 2 < dev.ChardevIDs.length then
              (if dev.ChardevIDs.get ⟨2, h⟩ ≠ "" then
                ["chardev3=" ++ dev.ChardevIDs.get ⟨2, h⟩]
               else [])
             else []) ++
            (if h : dev.ChardevIDs.length = 4 then
              (if dev.ChardevIDs.get ⟨3, by omega⟩ ≠ "" then
                ["chardev4=" ++ dev.ChardevIDs.get ⟨3, by omega⟩]
               else [])
             else [])
           else [])
        pure dp
    else
      pure deviceParams : GoOut (List String))
  return (["-device", goJoin deviceParams], config)

def CharDevice.QemuParams (goarch : String) (cdev : CharDevice) (config : Config) :
    GoOut (List String × Config) := do
  let deviceParams := [CharDevice.deviceName goarch cdev config]
  let deviceParams := deviceParams ++
    (if cdev.Driver = VirtioSerial ∧
        disableModern cdev.Transport goarch (some config) cdev.DisableModern ≠ "" then
      [disableModern cdev.Transport goarch (some config) cdev.DisableModern]
     else [])
  let deviceParams := deviceParams ++ (if cdev.Bus ≠ "" then ["bus=" ++ cdev.Bus] else [])
  let deviceParams := deviceParams ++ ["chardev=" ++ cdev.ID, "id=" ++ cdev.DeviceID]
  let deviceParams := deviceParams ++ (if cdev.Name ≠ "" then ["name=" ++ cdev.Name] else [])
  let deviceParams := deviceParams ++
    (if cdev.Driver = VirtioSerial ∧ isVirtioPCI cdev.Transport goarch (some config) ∧
        cdev.ROMFile ≠ "" then
      ["romfile=" ++ cdev.ROMFile]
     else [])
  let deviceParams := deviceParams ++
    (if cdev.Driver = VirtioSerial ∧ isVirtioCCW cdev.Transport goarch (some config) then
      (if config.Knobs.IOMMUPlatform then ["iommu_platform=on"] else []) ++
        ["devno=" ++ cdev.DevNo]
     else [])
  let cdevParams := [cdev.Backend, "id=" ++ cdev.ID]
  let cdevParams := cdevParams ++
    (if cdev.Backend = Socket then ["path=" ++ cdev.Path ++ ",server=on,wait=off"]
     else if cdev.Backend = FileBackend then ["path=" ++ cdev.Path]
     else [])
  let cMux ← getConfigOnOff "Mux" "mux" cdev.Mux
  let cdevParams := cdevParams ++ (if cMux ≠ "" then [cMux] else [])
  let cSig ← getConfigOnOff "Signal" "signal" cdev.Signal
  let cdevParams := cdevParams ++ (if cSig ≠ "" then [cSig] else [])
  let qemuParams :=
    (if cdev.Driver ≠ LegacySerial ∧ cdev.Driver ≠ PCISerialDevice then
      ["-device", goJoin deviceParams]
     else [])
  let qemuParams := qemuParams ++
    (if cdev.Driver = PCISerialDevice then ["-serial", "none"] else [])
  let qemuParams := qemuParams ++ ["-chardev", goJoin cdevParams]
  return (qemuParams, config)

def MonitorDevice.QemuParams (dev : MonitorDevice) (config : Config) :
    GoOut (List String × Config) := do
  let monParams :=
    if dev.Backend = Socket then
      ["unix:" ++ dev.Path ++ ",server=on,wait=off"]
    else
      (if dev.Name ≠ "" ∧ dev.ChardevID = "" then [dev.Name] else []) ++
      (if dev.ChardevID ≠ "" ∧ dev.Name = "" then ["chardev:" ++ dev.ChardevID] else [])
  return (["-monitor", goJoin monParams], config)

/-- `func (config *Config) appendFDs(fds []*os.File) []int` -/
def Config.appendFDs (config : Config) (fds : List OSFile) : List Int × Config :=
  let oldLen := config.fds.length
  let config := { config with fds := config.fds ++ fds }
  ((List.range fds.length).map (fun i => ((oldLen + 3 + i : Nat) : Int)), config)

/-- `func (n NetDeviceType) QemuNetdevParam(netdev *NetDevice, config *Config) string`.
The method first defaults the (pointer) receiver's transport; defaulting is
idempotent, so using the original device is observationally identical. -/
def NetDeviceType.QemuNetdevParam (n : String) (netdev : NetDevice) (goarch : String)
    (config : Config) : GoOut String :=
  let transport := if netdev.Transport = "" then
      defaultTransport netdev.Transport goarch (some config)
    else netdev.Transport
  if n = USER then .ret "user"
  else if n = MCASTSOCKET then .ret "socket"
  else if n = TAP ∨ n = MACVTAP ∨ n = IPVTAP ∨ n = VETHTAP then .ret "tap"
  else if n = VFIO then
    (if transport = TransportMMIO then
      .fatal "vfio devices are not support with the MMIO transport"
     else .ret "")
  else if n = VHOSTUSER then
    (if transport = TransportCCW then
      .fatal "vhost-user devices are not supported on IBM Z"
     else .ret "vhost-user")
  else .ret ""

/-- `func (n NetDeviceType) QemuDeviceParam(netdev *NetDevice, config *Config) DeviceDriver` -/
def NetDeviceType.QemuDeviceParam (n : String) (netdev : NetDevice) (goarch : String)
    (config : Config) : GoOut String :=
  let transport := if netdev.Transport = "" then
      defaultTransport netdev.Transport goarch (some config)
    else netdev.Transport
  if netdev.Driver ≠ VirtioNet then .ret netdev.Driver
  else do
    let device ← (if n = MCASTSOCKET ∨ n = USER ∨ n = TAP ∨ n = MACVTAP ∨ n = IPVTAP ∨
        n = VETHTAP then
        pure (some "virtio-net")
      else if n = VFIO then
        (if transport = TransportMMIO then
          .fatal "vfio devices are not support with the MMIO transport"
         else pure (some "vfio"))
      else if n = VHOSTUSER then
        (if transport = TransportCCW then
          .fatal "vhost-user devices are not supported on IBM Z"
         else pure none)
      else pure none : GoOut (Option String))
    match device with
    | none => return ""
    | some device =>
      if transport = TransportPCI then return (device ++ "-pci")
      else if transport = TransportCCW then return (device ++ "-ccw")
      else if transport = TransportMMIO then return (device ++ "-device")
      else return ""

/-- `func (netdev NetDevice) mqParameter(config *Config) string` -/
def NetDevice.mqParameter (goarch : String) (netdev : NetDevice) (config : Config) : String :=
  let p := ["mq=on"]
  let p := p ++
    (if isVirtioPCI netdev.Transport goarch (some config) then
      ["vectors=" ++ toString (netdev.FDs.length * 2 + 2)]
     else [])
  goJoin p

/-- `func (p PortRule) String() string` -/
def PortRule.String (p : PortRule) : String :=
  p.Protocol ++ ":" ++ p.Host.Address ++ ":" ++ toString p.Host.Port ++ "-" ++
    p.Guest.Address ++ ":" ++ toString p.Guest.Port

/-- `func (netdev NetDevice) QemuDeviceParams(config *Config) []string`;
`none` models the nil slice. -/
def NetDevice.QemuDeviceParams (goarch : String) (netdev : NetDevice) (config : Config) :
    GoOut (Option (List String)) := do
  let driver ← NetDeviceType.QemuDeviceParam netdev.Type' netdev goarch config
  if driver = "" then
    return none
  else
    let deviceParams := [driver, "netdev=" ++ netdev.ID, "mac=" ++ netdev.MACAddress]
    let deviceParams := deviceParams ++
      (if netdev.Bus ≠ "" then ["bus=" ++ netdev.Bus] else [])
    let deviceParams := deviceParams ++
      (if netdev.Addr ≠ "" then
        (match goAtoi netdev.Addr with
         | some addr => if addr ≥ 0 then ["addr=0x" ++ sprintfHex02 addr] else []
         | none => [])
       else [])
    let deviceParams := deviceParams ++
      (if netdev.BootIndex ≠ "" then ["bootindex=" ++ netdev.BootIndex] else [])
    let deviceParams := deviceParams ++
      (if driver.startsWith "virtio" ∧
          disableModern netdev.Transport goarch (some config) netdev.DisableModern ≠ "" then
        [disableModern netdev.Transport goarch (some config) netdev.DisableModern]
       else [])
    let deviceParams := deviceParams ++
      (if netdev.FDs.length > 0 then [NetDevice.mqParameter goarch netdev config] else [])
    let deviceParams := deviceParams ++
      (if isVirtioPCI netdev.Transport goarch (some config) ∧ netdev.ROMFile ≠ "" then
        ["romfile=" ++ netdev.ROMFile]
       else [])
    let deviceParams := deviceParams ++
      (if isVirtioCCW netdev.Transport goarch (some config) then
        (if config.Knobs.IOMMUPlatform then ["iommu_platform=on"] else []) ++
          ["devno=" ++ netdev.DevNo]
       else [])
    return (some deviceParams)

/-- `func (netdev NetDevice) QemuNetdevParams(config *Config) []string` -/
def NetDevice.QemuNetdevParams (goarch : String) (netdev : NetDevice) (config : Config) :
    GoOut (Option (List String) × Config) := do
  let netdevType ← NetDeviceType.QemuNetdevParam netdev.Type' netdev goarch config
  if netdevType = "" then
    return (none, config)
  else
    let netdevParams := [netdevType, "id=" ++ netdev.ID]
    let step ← (if netdev.VHost then do
        let np := netdevParams ++ ["vhost=on"]
        if netdev.VhostFDs.length > 0 then
          let r := Config.appendFDs config netdev.VhostFDs
          let fdParams := r.1.map toString
          pure (np ++ ["vhostfds=" ++ String.intercalate ":" fdParams], r.2)
        else
          pure (np, config)
      else
        pure (netdevParams, config) : GoOut (List String × Config))
    let netdevParams := step.1
    let config := step.2
    let step2 ← (if netdev.Type' = TAP then
        if netdev.FDs.length > 0 then do
          let r := Config.appendFDs config netdev.FDs
          let fdParams := r.1.map toString
          pure (netdevParams ++ ["fds=" ++ String.intercalate ":" fdParams], r.2)
        else
          pure (netdevParams ++ ["ifname=" ++ netdev.Tap.IFName] ++
            (if netdev.Tap.DownScript ≠ "" then ["downscript=" ++ netdev.Tap.DownScript]
             else []) ++
            (if netdev.Tap.Script ≠ "" then ["script=" ++ netdev.Tap.Script] else []),
            config)
      else if netdev.Type' = USER then
        pure (netdevParams ++
          (if netdev.User.IPV4 then ["ipv4=on"] else ["ipv4=off"]) ++
          ((netdev.User.HostForward.filter
              (fun rule => PortRule.String rule ≠ EmptyPortRule)).map
            (fun rule => "hostfwd=" ++ PortRule.String rule)) ++
          (if netdev.User.IPV4NetAddr ≠ "" then ["net=" ++ netdev.User.IPV4NetAddr]
           else []),
          config)
      else if netdev.Type' = MCASTSOCKET then
        pure (netdevParams ++
          ["mcast=" ++ netdev.McastSocket.Address ++ ":" ++ netdev.McastSocket.Port],
          config)
      else
        pure (netdevParams, config) : GoOut (List String × Config))
    return (some step2.1, step2.2)

/-- `func (netdev NetDevice) QemuParams(config *Config) []string` -/
def NetDevice.QemuParams (goarch : String) (netdev : NetDevice) (config : Config) :
    GoOut (List String × Config) := do
  if netdev.Type' = MACVTAP ∧ netdev.FDs.length = 0 then
    return ([], config)
  else
    let t1 ← NetDeviceType.QemuNetdevParam netdev.Type' netdev goarch config
    let step ← (if t1 ≠ "" then do
        let r ← NetDevice.QemuNetdevParams goarch netdev config
        match r.1 with
        | some l => pure ((["-netdev", goJoin l] : List String), r.2)
        | none => pure (([] : List String), r.2)
      else
        pure (([] : List String), config) : GoOut (List String × Config))
    let qemuParams := step.1
    let config := step.2
    let t2 ← NetDeviceType.QemuDeviceParam netdev.Type' netdev goarch config
    let step2 ← (if t2 ≠ "" then do
        let r ← NetDevice.QemuDeviceParams goarch netdev config
        match r with
        | some l => pure (qemuParams ++ ["-device", goJoin l])
        | none => pure qemuParams
      else
        pure qemuParams : GoOut (List String))
    return (step2, config)

def SpiceDevice.QemuParams (dev : SpiceDevice) (config : Config) :
    GoOut (List String × Config) := do
  let deviceParams :=
    (if dev.Port ≠ "" then ["port=" ++ dev.Port] else []) ++
    (if dev.TLSPort ≠ "" then ["tls-port=" ++ dev.TLSPort] else [])
  let addr := if dev.HostAddress ≠ "" then dev.HostAddress else "127.0.0.1"
  let deviceParams := deviceParams ++ ["addr=" ++ addr]
  let deviceParams := deviceParams ++
    (if dev.DisableTicketing then ["disable-ticketing=on"] else [])
  let chardevID := "spicechannel0"
  let virtportParams := ["virtserialport", "chardev=" ++ chardevID,
    "name=" ++ SpiceSerialNamespace]
  let chardevParams := [SpiceCharDevDriver, "id=" ++ chardevID, "name=" ++ SpiceCharDevName]
  return (["-spice", goJoin deviceParams, "-device", "virtio-serial-pci",
    "-device", goJoin virtportParams, "-chardev", goJoin chardevParams], config)

def TPMDevice.QemuParams (goarch : String) (tpm : TPMDevice) (config : Config) :
    GoOut (List String × Config) := do
  let deviceParams := [TPMDevice.deviceName goarch tpm, "tpmdev=" ++ tpm.ID]
  let charDev := "chr" ++ tpm.ID
  let tpmParams := [tpm.Type', "id=" ++ tpm.ID, "chardev=" ++ charDev]
  let chardevParams := ["socket", "id=" ++ charDev, "path=" ++ tpm.Path]
  return (["-chardev", goJoin chardevParams, "-tpmdev", goJoin tpmParams,
    "-device", goJoin deviceParams], config)

/-! ## The Device interface dispatch -/

def Device.Valid : Device → Option String
  | .blk d => d.Valid
  | .char d => d.Valid
  | .legacySerial d => d.Valid
  | .monitor d => d.Valid
  | .net d => d.Valid
  | .rng d => d.Valid
  | .serial d => d.Valid
  | .uefi d => d.Valid
  | .pcieRootPort d => d.Valid
  | .scsiController d => d.Valid
  | .ideController d => d.Valid
  | .usbController d => d.Valid
  | .spice d => d.Valid
  | .tpm d => d.Valid

def Device.QemuParams (goarch : String) : Device → Config → GoOut (List String × Config)
  | .blk d, config => BlockDevice.QemuParams goarch d config
  | .char d, config => CharDevice.QemuParams goarch d config
  | .legacySerial d, config => LegacySerialDevice.QemuParams d config
  | .monitor d, config => MonitorDevice.QemuParams d config
  | .net d, config => NetDevice.QemuParams goarch d config
  | .rng d, config => RngDevice.QemuParams goarch d config
  | .serial d, config => SerialDevice.QemuParams goarch d config
  | .uefi d, config => UEFIFirmwareDevice.QemuParams d config
  | .pcieRootPort d, config => PCIeRootPortDevice.QemuParams goarch d config
  | .scsiController d, config => SCSIControllerDevice.QemuParams goarch d config
  | .ideController d, config => IDEControllerDevice.QemuParams d config
  | .usbController d, config => USBControllerDevice.QemuParams d config
  | .spice d, config => SpiceDevice.QemuParams d config
  | .tpm d, config => TPMDevice.QemuParams goarch d config

/-! ## SMBIOS rendering (smbios.go) -/

def SMTableBIOS.QemuParams (table : SMTableBIOS) : List String :=
  let tableParams :=
    (if table.Vendor ≠ "" then ["vendor=" ++ table.Vendor] else []) ++
    (if table.Version ≠ "" then ["version=" ++ table.Version] else []) ++
    (if table.Date ≠ "" then ["date=" ++ table.Date] else []) ++
    (if table.Release ≠ "" then ["release=" ++ table.Release] else []) ++
    (if table.UEFI ≠ "" then ["uefi=" ++ table.UEFI] else [])
  if tableParams.length > 0 then ["-smbios", goJoin ("type=0" :: tableParams)] else []

def SMTableSystem.QemuParams (table : SMTableSystem) : List String :=
  let tableParams :=
    (if table.Manufacturer ≠ "" then ["manufacturer=" ++ table.Manufacturer] else []) ++
    (if table.Product ≠ "" then ["product=" ++ table.Product] else []) ++
    (if table.Version ≠ "" then ["version=" ++ table.Version] else []) ++
    (if table.Serial ≠ "" then ["serial=" ++ table.Serial] else []) ++
    (if table.UUID ≠ "" then ["uuid=" ++ table.UUID] else []) ++
    (if table.SKU ≠ "" then ["sku=" ++ table.SKU] else []) ++
    (if table.Family ≠ "" then ["family=" ++ table.Family] else [])
  if tableParams.length > 0 then ["-smbios", goJoin ("type=1" :: tableParams)] else []

def SMTableBaseboard.QemuParams (table : SMTableBaseboard) : List String :=
  let tableParams :=
    (if table.Manufacturer ≠ "" then ["manufacturer=" ++ table.Manufacturer] else []) ++
    (if table.Product ≠ "" then ["product=" ++ table.Product] else []) ++
    (if table.Version ≠ "" then ["version=" ++ table.Version] else []) ++
    (if table.Serial ≠ "" then ["serial=" ++ table.Serial] else []) ++
    (if table.Asset ≠ "" then ["asset=" ++ table.Asset] else []) ++
    (if table.Location ≠ "" then ["location=" ++ table.Location] else [])
  if tableParams.length > 0 then ["-smbios", goJoin ("type=2" :: tableParams)] else []

def SMTableChassis.QemuParams (table : SMTableChassis) : List String :=
  let tableParams :=
    (if table.Manufacturer ≠ "" then ["manufacturer=" ++ table.Manufacturer] else []) ++
    (if table.Version ≠ "" then ["version=" ++ table.Version] else []) ++
    (if table.Serial ≠ "" then ["serial=" ++ table.Serial] else []) ++
    (if table.Asset ≠ "" then ["asset=" ++ table.Asset] else []) ++
    (if table.SKU ≠ "" then ["sku=" ++ table.SKU] else [])
  if tableParams.length > 0 then ["-smbios", goJoin ("type=3" :: tableParams)] else []

def SMTableProcessor.QemuParams (table : SMTableProcessor) : List String :=
  let tableParams :=
    (if table.SocketPrefix ≠ "" then ["sock_pfx=" ++ table.SocketPrefix] else []) ++
    (if table.Manufacturer ≠ "" then ["manufacturer=" ++ table.Manufacturer] else []) ++
    (if table.Version ≠ "" then ["version=" ++ table.Version] else []) ++
    (if table.Serial ≠ "" then ["serial=" ++ table.Serial] else []) ++
    (if table.Asset ≠ "" then ["asset=" ++ table.Asset] else []) ++
    (if table.Part ≠ "" then ["part=" ++ table.Part] else [])
  if tableParams.length > 0 then ["-smbios", goJoin ("type=4" :: tableParams)] else []

def SMTableMemory.QemuParams (table : SMTableMemory) : List String :=
  let tableParams :=
    (if table.LocationPrefix ≠ "" then ["loc_pfx=" ++ table.LocationPrefix] else []) ++
    (if table.Bank ≠ "" then ["bank=" ++ table.Bank] else []) ++
    (if table.Manufacturer ≠ "" then ["manufacturer=" ++ table.Manufacturer] else []) ++
    (if table.Serial ≠ "" then ["serial=" ++ table.Serial] else []) ++
    (if table.Asset ≠ "" then ["asset=" ++ table.Asset] else []) ++
    (if table.Part ≠ "" then ["part=" ++ table.Part] else []) ++
    (if table.Speed ≠ "" then ["speed=" ++ table.Speed] else [])
  if tableParams.length > 0 then ["-smbios", goJoin ("type=17" :: tableParams)] else []

def SMBIOSInfo.QemuParams (smb : SMBIOSInfo) : List String :=
  (if smb.File ≠ "" then ["-smbios", "file=" ++ smb.File] else []) ++
  smb.BIOS.QemuParams ++ smb.System.QemuParams ++ smb.Baseboard.QemuParams ++
  smb.Chassis.QemuParams ++
  (smb.Processors.map SMTableProcessor.QemuParams).flatten ++
  (smb.Memory.map SMTableMemory.QemuParams).flatten

/-! ## The assembly pipeline (qemu.go `append*` methods and ConfigureParams) -/

def Config.appendName (config : Config) : Config :=
  if config.Name ≠ "" then
    { config with qemuParams := config.qemuParams ++ ["-name", config.Name] }
  else config

def Config.appendUUID (config : Config) : Config :=
  if config.UUID ≠ "" then
    { config with qemuParams := config.qemuParams ++ ["-uuid", config.UUID] }
  else config

/-- `func (config *Config) appendMachine()`: bad on/off/split values hit
`log.Fatalf`. -/
def Config.appendMachine (config : Config) : GoOut Config := do
  if config.Machine.Type' ≠ "" then
    let machineParams := [config.Machine.Type']
    let machineParams := machineParams ++
      (if config.Machine.Acceleration ≠ "" then
        ["accel=" ++ config.Machine.Acceleration]
       else [])
    let chip := config.Machine.KernelIRQChip
    let machineParams ← (if chip ≠ "" then
        if chip = "on" ∨ chip = "off" ∨ chip = "split" then
          pure (machineParams ++ ["kernel_irqchip=" ++ chip])
        else
          .fatal "Invalid KernealIRQChip value: must be one of on, off, or split"
      else pure machineParams : GoOut (List String))
    let vmport := config.Machine.VMPort
    let machineParams ← (if vmport ≠ "" then
        if vmport = "on" ∨ vmport = "off" ∨ vmport = "auto" then
          pure (machineParams ++ ["vmport=" ++ vmport])
        else
          .fatal "Invalid VMPort value: must be one of on, off, or auto"
      else pure machineParams : GoOut (List String))
    let machineParams := machineParams ++
      (if config.Machine.KVMShadowMemSizeBytes > 0 then
        ["kvm_shadow_mem=" ++ toString config.Machine.KVMShadowMemSizeBytes]
       else [])
    let p1 ← getConfigOnOff "SMM" "smm" config.Machine.SMM
    let machineParams := machineParams ++ (if p1 ≠ "" then [p1] else [])
    let p2 ← getConfigOnOff "DumpGuestCore" "dump-guest-core" config.Machine.DumpGuestCore
    let machineParams := machineParams ++ (if p2 ≠ "" then [p2] else [])
    let p3 ← getConfigOnOff "MemoryMerge" "mem-merge" config.Machine.MemoryMerge
    let machineParams := machineParams ++ (if p3 ≠ "" then [p3] else [])
    let p4 ← getConfigOnOff "IGDPassthrough" "igd-passthrough" config.Machine.IGDPassthrough
    let machineParams := machineParams ++ (if p4 ≠ "" then [p4] else [])
    let p5 ← getConfigOnOff "AESKeyWrap" "aes-key-wrap" config.Machine.AESKeyWrap
    let machineParams := machineParams ++ (if p5 ≠ "" then [p5] else [])
    let p6 ← getConfigOnOff "DEAKeyWrap" "dea-key-wrap" config.Machine.DEAKeyWrap
    let machineParams := machineParams ++ (if p6 ≠ "" then [p6] else [])
    let p7 ← getConfigOnOff "SuppresVMDescription" "suppress-vmdesc"
      config.Machine.SuppressVMDescription
    let machineParams := machineParams ++ (if p7 ≠ "" then [p7] else [])
    let p8 ← getConfigOnOff "NVDIMM" "nvdimm" config.Machine.NVDIMM
    let machineParams := machineParams ++ (if p8 ≠ "" then [p8] else [])
    let p9 ← getConfigOnOff "EnforceConfigSection" "enforce-config-section"
      config.Machine.EnforceConfigSection
    let machineParams := machineParams ++ (if p9 ≠ "" then [p9] else [])
    let machineParams := machineParams ++
      (if config.Machine.Options ≠ "" then [config.Machine.Options] else [])
    return { config with qemuParams := config.qemuParams ++ ["-machine", goJoin machineParams] }
  else
    return config

def Config.appendCPUModel (config : Config) : Config :=
  if config.CPUModel ≠ "" then
    let cpuParams := [config.CPUModel] ++ config.CPUModelFlags
    { config with qemuParams := config.qemuParams ++ ["-cpu", goJoin cpuParams] }
  else config

def Config.appendSpice (config : Config) : Config :=
  if config.SpiceDevice.Port ≠ "" ∨ config.SpiceDevice.TLSPort ≠ "" then
    { config with devices := config.devices ++ [Device.spice config.SpiceDevice] }
  else config

def Config.appendTPM (config : Config) : Config :=
  if config.TPM.ID ≠ "" then
    { config with devices := config.devices ++ [Device.tpm config.TPM] }
  else config

def Config.appendSMBIOSInfo (config : Config) : Config × Option String :=
  match config.SMBIOS.Valid with
  | some e => (config, some e)
  | none =>
    ({ config with qemuParams := config.qemuParams ++ config.SMBIOS.QemuParams }, none)

def appendQMPSocketsLoop : List QMPSocket → Config → List String → Config × List String
  | [], config, errors => (config, errors)
  | q :: qs, config, errors =>
    match q.Valid with
    | some e => appendQMPSocketsLoop qs config (errors ++ [e])
    | none =>
      let qmpParams := [q.Type' ++ ":" ++ q.Name]
      let qmpParams := qmpParams ++
        (if q.Server then ["server=on"] ++ (if q.NoWait then ["wait=off"] else []) else [])
      appendQMPSocketsLoop qs
        { config with qemuParams := config.qemuParams ++ ["-qmp", goJoin qmpParams] }
        errors

/-- `func (config *Config) appendQMPSockets() error` -/
def Config.appendQMPSockets (config : Config) : Config × Option String :=
  let r := appendQMPSocketsLoop config.QMPSockets config []
  if r.2.length > 0 then
    (r.1, some ("Failed to append " ++ toString r.2.length ++ " QMPSocket(s):
" ++
      String.intercalate "
" r.2))
  else (r.1, none)

def Config.appendMemory (config : Config) : Config :=
  if config.Memory.Size ≠ "" then
    let memoryParams := [config.Memory.Size]
    let memoryParams := memoryParams ++
      (if config.Memory.Slots > 0 then ["slots=" ++ toString config.Memory.Slots] else [])
    let memoryParams := memoryParams ++
      (if config.Memory.MaxMem ≠ "" then ["maxmem=" ++ config.Memory.MaxMem] else [])
    { config with qemuParams := config.qemuParams ++ ["-m", goJoin memoryParams] }
  else config

/-- The device collections appended by `appendDevices`, in the order the two
`reflect.VisibleFields(Config)` loops visit them.  `VisibleFields` yields the
struct fields in declaration order, so the first loop (controllers only)
produces PCIeRootPort, SCSIController, IDEController, USBController, and the
second loop produces the remaining collections in their declaration order:
Rng, Blk, Net, Char, LegacySerial, Serial, Monitor, UEFIFirmware. -/
def devicesFromCollections (config : Config) : List Device :=
  (config.PCIeRootPortDevices.map Device.pcieRootPort) ++
  (config.SCSIControllerDevices.map Device.scsiController) ++
  (config.IDEControllerDevices.map Device.ideController) ++
  (config.USBControllerDevices.map Device.usbController) ++
  (config.RngDevices.map Device.rng) ++
  (config.BlkDevices.map Device.blk) ++
  (config.NetDevices.map Device.net) ++
  (config.CharDevices.map Device.char) ++
  (config.LegacySerialDevices.map Device.legacySerial) ++
  (config.SerialDevices.map Device.serial) ++
  (config.MonitorDevices.map Device.monitor) ++
  (config.UEFIFirmwareDevices.map Device.uefi)

/-- The validate-and-render loop of `appendDevices`: a failing device adds
one message to the accumulator and rendering continues; a valid device's
tokens are appended to `config.qemuParams`. -/
def appendDevicesLoop (goarch : String) :
    List Device → Config → List String → GoOut (Config × List String)
  | [], config, errors => .ret (config, errors)
  | d :: ds, config, errors =>
    match Device.Valid d with
    | some e => appendDevicesLoop goarch ds config (errors ++ [e])
    | none => do
      let r ← Device.QemuParams goarch d config
      appendDevicesLoop goarch ds
        { r.2 with qemuParams := r.2.qemuParams ++ r.1 } errors

/-- `func (config *Config) appendDevices() error` -/
def Config.appendDevices (goarch : String) (config : Config) :
    GoOut (Config × Option String) := do
  let config := { config with devices := config.devices ++ devicesFromCollections config }
  let r ← appendDevicesLoop goarch config.devices config []
  if r.2.length > 0 then
    return (r.1, some ("Failed to append " ++ toString r.2.length ++ " devices: " ++
      String.intercalate ", " r.2))
  else
    return (r.1, none)

/-- `func (rtc RTC) Valid() bool` -/
def RTC.Valid (rtc : RTC) : Bool :=
  if rtc.Clock ≠ RTCClockHost ∧ rtc.Clock ≠ RTCClockRT ∧ rtc.Clock ≠ RTCClockVM then false
  else if rtc.DriftFix ≠ RTCSlew ∧ rtc.DriftFix ≠ RTCNoDriftFix then false
  else true

def Config.appendRTC (config : Config) : Config :=
  if ¬ config.RTC.Valid then config
  else
    let RTCParams := ["base=" ++ config.RTC.Base]
    let RTCParams := RTCParams ++
      (if config.RTC.DriftFix ≠ "" then ["driftfix=" ++ config.RTC.DriftFix] else [])
    let RTCParams := RTCParams ++
      (if config.RTC.Clock ≠ "" then ["clock=" ++ config.RTC.Clock] else [])
    { config with qemuParams := config.qemuParams ++ ["-rtc", goJoin RTCParams] }

def Config.appendGlobalParams (config : Config) : Config :=
  { config with qemuParams := config.qemuParams ++
      (config.GlobalParams.map (fun p => ["-global", p])).flatten }

def Config.appendPFlashParam (config : Config) : Config :=
  { config with qemuParams := config.qemuParams ++
      (config.PFlash.map (fun p => ["-pflash", p])).flatten }

def Config.appendVGA (config : Config) : Config :=
  if config.VGA ≠ "" then
    { config with qemuParams := config.qemuParams ++ ["-vga", config.VGA] }
  else config

/-- `func isDimmSupported(config *Config) bool` -/
def isDimmSupported (goarch : String) (config : Option Config) : Bool :=
  if goarch = "amd64" ∨ goarch = "386" ∨ goarch = "ppc64le" ∨ goarch = "arm64" then
    match config with
    | some c => ¬ (c.Machine.Type' = MachineTypeMicrovm)
    | none => true
  else false

def Config.appendMemoryKnobs (goarch : String) (config : Config) : Config :=
  if config.Memory.Size = "" then config
  else
    let dimmName := "dimm1"
    let objMemParam :=
      if config.Knobs.HugePages then
        "memory-backend-file,id=" ++ dimmName ++ ",size=" ++ config.Memory.Size ++
          ",mem-path=/dev/hugepages"
      else if config.Knobs.FileBackedMem ∧ config.Memory.Path ≠ "" then
        "memory-backend-file,id=" ++ dimmName ++ ",size=" ++ config.Memory.Size ++
          ",mem-path=" ++ config.Memory.Path
      else
        "memory-backend-ram,id=" ++ dimmName ++ ",size=" ++ config.Memory.Size
    let numaMemParam := "node,memdev=" ++ dimmName
    let objMemParam := objMemParam ++ (if config.Knobs.MemShared then ",share=on" else "")
    let objMemParam := objMemParam ++ (if config.Knobs.MemPrealloc then ",prealloc=on" else "")
    let config := { config with qemuParams := config.qemuParams ++ ["-object", objMemParam] }
    if isDimmSupported goarch (some config) then
      { config with qemuParams := config.qemuParams ++ ["-numa", numaMemParam] }
    else
      { config with qemuParams := config.qemuParams ++
          ["-machine", "memory-backend=" ++ dimmName] }

def Config.appendKnobs (goarch : String) (config : Config) : Config :=
  let config := config.appendMemoryKnobs goarch
  let config := if config.Knobs.NoUserConfig then
      { config with qemuParams := config.qemuParams ++ ["-no-user-config"] } else config
  let config := if config.Knobs.NoDefaults then
      { config with qemuParams := config.qemuParams ++ ["-nodefaults"] } else config
  let config := if config.Knobs.NoGraphic then
      { config with qemuParams := config.qemuParams ++ ["-nographic"] } else config
  let config := if config.Knobs.NoReboot then
      { config with qemuParams := config.qemuParams ++ ["--no-reboot"] } else config
  let config := if config.Knobs.NoShutdown then
      { config with qemuParams := config.qemuParams ++ ["--no-shutdown"] } else config
  let config := if config.Knobs.Daemonize then
      { config with qemuParams := config.qemuParams ++ ["-daemonize"] } else config
  let config := if config.Knobs.Mlock then
      { config with qemuParams := config.qemuParams ++ ["-overcommit", "mem-lock=on"] }
    else config
  let config := if config.Knobs.Stopped then
      { config with qemuParams := config.qemuParams ++ ["-S"] } else config
  let config := if config.Knobs.NoHPET then
      { config with qemuParams := config.qemuParams ++ ["-no-hpet"] } else config
  let config := if config.Knobs.Snapshot then
      { config with qemuParams := config.qemuParams ++ ["-snapshot"] } else config
  config

def Config.appendKernel (config : Config) : Config :=
  if config.Kernel.Path ≠ "" then
    let config := { config with qemuParams :=
      config.qemuParams ++ ["-kernel", config.Kernel.Path] }
    let config := if config.Kernel.InitrdPath ≠ "" then
        { config with qemuParams := config.qemuParams ++ ["-initrd", config.Kernel.InitrdPath] }
      else config
    if config.Kernel.Params ≠ "" then
      { config with qemuParams := config.qemuParams ++ ["-append", config.Kernel.Params] }
    else config
  else config

def Config.appendBios (config : Config) : Config :=
  if config.Bios ≠ "" then
    { config with qemuParams := config.qemuParams ++ ["-bios", config.Bios] }
  else config

def Config.appendIOThreads (config : Config) : Config :=
  { config with qemuParams := config.qemuParams ++
      ((config.IOThreads.filter (fun t => t.ID ≠ "")).map
        (fun t => ["-object", "iothread,id=" ++ t.ID])).flatten }

def Config.appendIncoming (config : Config) : Config :=
  if config.Incoming.MigrationType = MigrationExec then
    { config with qemuParams := config.qemuParams ++
        ["-S", "-incoming", "exec:" ++ config.Incoming.Exec] }
  else if config.Incoming.MigrationType = MigrationFD then
    let r := config.appendFDs [()]
    { r.2 with qemuParams := r.2.qemuParams ++
        ["-S", "-incoming", "fd:" ++ toString (r.1.headD 0)] }
  else if config.Incoming.MigrationType = MigrationDefer then
    { config with qemuParams := config.qemuParams ++ ["-S", "-incoming", "defer"] }
  else config

def Config.appendPidFile (config : Config) : Config :=
  if config.PidFile ≠ "" then
    { config with qemuParams := config.qemuParams ++ ["-pidfile", config.PidFile] }
  else config

def Config.appendLogFile (config : Config) : Config :=
  if config.LogFile ≠ "" then
    { config with qemuParams := config.qemuParams ++ ["-D", config.LogFile] }
  else config

/-- `func (fwcfg FwCfg) Valid() bool` -/
def FwCfg.Valid (fwcfg : FwCfg) : Bool :=
  if fwcfg.Name = "" then false
  else if fwcfg.File ≠ "" ∧ fwcfg.Str ≠ "" then false
  else if fwcfg.File = "" ∧ fwcfg.Str = "" then false
  else true

/-- `func (fwcfg FwCfg) QemuParams(config *Config) []string`: the receiver is
ignored; the loop runs over `config.FwCfg` and `fwcfgParams` accumulates
ACROSS the iterations (each iteration emits the join of everything so
far). -/
def FwCfgQemuParamsLoop : List FwCfg → List String → List String → List String
  | [], _, qemuParams => qemuParams
  | f :: fs, fwcfgParams, qemuParams =>
    let fwcfgParams := fwcfgParams ++
      (if f.Name ≠ "" then
        ["name=" ++ f.Name] ++
        (if f.File ≠ "" then ["file=" ++ f.File] else []) ++
        (if f.Str ≠ "" then ["string=" ++ f.Str] else [])
       else [])
    FwCfgQemuParamsLoop fs fwcfgParams (qemuParams ++ ["-fw_cfg", goJoin fwcfgParams])

def FwCfg.QemuParams (fwcfg : FwCfg) (config : Config) : List String :=
  FwCfgQemuParamsLoop config.FwCfg [] []

/-- `func (config *Config) appendFwCfg(logger QMPLog)`: an invalid entry is
only logged. -/
def Config.appendFwCfg (config : Config) : Config :=
  { config with qemuParams := config.qemuParams ++
      ((config.FwCfg.filter FwCfg.Valid).map (fun f => f.QemuParams config)).flatten }

def Config.appendSeccompSandbox (config : Config) : Config :=
  if config.SeccompSandbox ≠ "" then
    { config with qemuParams := config.qemuParams ++ ["-sandbox", config.SeccompSandbox] }
  else config

/-- `func (config *Config) appendCPUs() error` -/
def Config.appendCPUs (config : Config) : Config × Option String :=
  if config.SMP.CPUs > 0 then
    if config.SMP.MaxCPUs > 0 ∧ config.SMP.MaxCPUs < config.SMP.CPUs then
      (config, some ("MaxCPUs " ++ toString config.SMP.MaxCPUs ++
        " must be equal to or greater than CPUs " ++ toString config.SMP.CPUs))
    else
      let SMPParams := [toString config.SMP.CPUs]
      let SMPParams := SMPParams ++
        (if config.SMP.Cores > 0 then ["cores=" ++ toString config.SMP.Cores] else [])
      let SMPParams := SMPParams ++
        (if config.SMP.Threads > 0 then ["threads=" ++ toString config.SMP.Threads] else [])
      let SMPParams := SMPParams ++
        (if config.SMP.Sockets > 0 then ["sockets=" ++ toString config.SMP.Sockets] else [])
      let SMPParams := SMPParams ++
        (if config.SMP.MaxCPUs > 0 then ["maxcpus=" ++ toString config.SMP.MaxCPUs] else [])
      ({ config with qemuParams := config.qemuParams ++ ["-smp", goJoin SMPParams] }, none)
  else (config, none)

/-- `func ConfigureParams(config *Config, logger QMPLog) ([]string, error)`:
the full assembly pipeline.  The logger is side-effect-only and is not
modelled.  The result pairs the returned token list with the returned error
(`none` = nil). -/
def ConfigureParams (goarch : String) (config : Config) :
    GoOut (List String × Option String) := do
  let config := config.appendName
  let config := config.appendUUID
  let config ← config.appendMachine
  let config := config.appendCPUModel
  let config := config.appendSpice
  let config := config.appendTPM
  let r := config.appendSMBIOSInfo
  match r.2 with
  | some e => return ([], some e)
  | none =>
  let config := r.1
  let r := config.appendQMPSockets
  match r.2 with
  | some e => return ([], some e)
  | none =>
  let config := r.1
  let config := config.appendMemory
  let rd ← Config.appendDevices goarch config
  match rd.2 with
  | some e => return ([], some e)
  | none =>
  let config := rd.1
  let config := config.appendRTC
  let config := config.appendGlobalParams
  let config := config.appendPFlashParam
  let config := config.appendVGA
  let config := config.appendKnobs goarch
  let config := config.appendKernel
  let config := config.appendBios
  let config := config.appendIOThreads
  let config := config.appendIncoming
  let config := config.appendPidFile
  let config := config.appendLogFile
  let config := config.appendFwCfg
  let config := config.appendSeccompSandbox
  let rc := config.appendCPUs
  match rc.2 with
  | some e => return ([], some e)
  | none => return (rc.1.qemuParams, none)

/-! ## Frame lemmas: a renderer can only touch `pciBusSlots` and `fds` -/

theorem GoOut.bind_eq_ret {α β : Type} {x : GoOut α} {f : α → GoOut β} {b : β}
    (h : GoOut.bind x f = .ret b) : ∃ a, x = .ret a ∧ f a = .ret b := by
  cases x with
  | ret a => exact ⟨a, rfl, h⟩
  | fatal m => exact absurd h (by simp [GoOut.bind])

/-- `out` agrees with `c` on every field except possibly the two the
renderers mutate. -/
def FrameOf (c out : Config) : Prop :=
  out = { c with pciBusSlots := out.pciBusSlots, fds := out.fds }

theorem frameOf_refl (c : Config) : FrameOf c c := rfl

theorem blk_frame (goarch : String) (d : BlockDevice) (c : Config)
    (out : List String × Config) (h : BlockDevice.QemuParams goarch d c = .ret out) :
    FrameOf c out.2 := by
  unfold BlockDevice.QemuParams at h
  by_cases hdo : d.DriveOnly
  · simp only [hdo, if_true, GoOut.pure_eq] at h
    cases h
    rfl
  · simp only [hdo, if_false, GoOut.monad_bind_eq] at h
    rcases GoOut.bind_eq_ret h with ⟨step, hstep, hrest⟩
    simp only [GoOut.pure_eq] at hrest
    cases hrest
    by_cases hvb : d.Driver = VirtioBlock
    · simp only [hvb, if_true, GoOut.monad_bind_eq] at hstep
      rcases GoOut.bind_eq_ret hstep with ⟨rs, _, hret⟩
      simp only [GoOut.pure_eq] at hret
      cases hret
      rfl
    · simp only [hvb, if_false, GoOut.pure_eq] at hstep
      cases hstep
      rfl

theorem char_frame (goarch : String) (d : CharDevice) (c : Config)
    (out : List String × Config) (h : CharDevice.QemuParams goarch d c = .ret out) :
    FrameOf c out.2 := by
  unfold CharDevice.QemuParams at h
  simp only [GoOut.monad_bind_eq] at h
  rcases GoOut.bind_eq_ret h with ⟨m1, _, h⟩
  rcases GoOut.bind_eq_ret h with ⟨m2, _, h⟩
  simp only [GoOut.pure_eq] at h
  cases h
  rfl

theorem legacySerial_frame (d : LegacySerialDevice) (c : Config)
    (out : List String × Config) (h : LegacySerialDevice.QemuParams d c = .ret out) :
    FrameOf c out.2 := by
  unfold LegacySerialDevice.QemuParams at h
  simp only [GoOut.pure_eq] at h
  cases h
  rfl

theorem monitor_frame (d : MonitorDevice) (c : Config)
    (out : List String × Config) (h : MonitorDevice.QemuParams d c = .ret out) :
    FrameOf c out.2 := by
  unfold MonitorDevice.QemuParams at h
  simp only [GoOut.pure_eq] at h
  cases h
  rfl

theorem Config.appendFDs_frame (c : Config) (fds : List OSFile) :
    FrameOf c (c.appendFDs fds).2 := rfl

theorem net_netdev_frame (goarch : String) (d : NetDevice) (c : Config)
    (out : Option (List String) × Config)
    (h : NetDevice.QemuNetdevParams goarch d c = .ret out) : FrameOf c out.2 := by
  unfold NetDevice.QemuNetdevParams at h
  simp only [GoOut.monad_bind_eq] at h
  rcases GoOut.bind_eq_ret h with ⟨t, _, h⟩
  by_cases ht : t = ""
  · simp only [ht, if_pos rfl, GoOut.pure_eq] at h
    cases h
    rfl
  · rw [if_neg ht] at h
    rcases GoOut.bind_eq_ret h with ⟨step, hstep, h⟩
    rcases GoOut.bind_eq_ret h with ⟨step2, hstep2, h⟩
    simp only [GoOut.pure_eq] at h
    cases h
    have hf1 : FrameOf c step.2 := by
      by_cases hv : d.VHost
      · simp only [hv, if_true] at hstep
        by_cases hfd : d.VhostFDs.length > 0
        · simp only [hfd, if_true, GoOut.pure_eq] at hstep
          cases hstep
          rfl
        · simp only [hfd, if_false, GoOut.pure_eq] at hstep
          cases hstep
          rfl
      · simp only [hv, if_false, GoOut.pure_eq] at hstep
        cases hstep
        rfl
    have hf2 : FrameOf step.2 step2.2 := by
      by_cases h1 : d.Type' = TAP
      · simp only [h1, if_pos rfl] at hstep2
        by_cases hfd : d.FDs.length > 0
        · simp only [hfd, if_true, GoOut.pure_eq] at hstep2
          cases hstep2
          rfl
        · simp only [hfd, if_false, GoOut.pure_eq] at hstep2
          cases hstep2
          rfl
      · rw [if_neg h1] at hstep2
        by_cases h2 : d.Type' = USER
        · simp only [h2, if_pos rfl, GoOut.pure_eq] at hstep2
          cases hstep2
          rfl
        · rw [if_neg h2] at hstep2
          by_cases h3 : d.Type' = MCASTSOCKET
          · simp only [h3, if_pos rfl, GoOut.pure_eq] at hstep2
            cases hstep2
            rfl
          · rw [if_neg h3] at hstep2
            simp only [GoOut.pure_eq] at hstep2
            cases hstep2
            rfl
    show step2.2 = _
    rw [hf2, hf1]

theorem net_frame (goarch : String) (d : NetDevice) (c : Config)
    (out : List String × Config) (h : NetDevice.QemuParams goarch d c = .ret out) :
    FrameOf c out.2 := by
  unfold NetDevice.QemuParams at h
  by_cases hmv : d.Type' = MACVTAP ∧ d.FDs.length = 0
  · simp only [hmv, if_true, GoOut.pure_eq] at h
    cases h
    rfl
  · rw [if_neg (by simpa using hmv)] at h
    simp only [GoOut.monad_bind_eq] at h
    rcases GoOut.bind_eq_ret h with ⟨t1, _, h⟩
    rcases GoOut.bind_eq_ret h with ⟨step, hstep, h⟩
    rcases GoOut.bind_eq_ret h with ⟨t2, _, h⟩
    rcases GoOut.bind_eq_ret h with ⟨step2, _, h⟩
    simp only [GoOut.pure_eq] at h
    cases h
    show step.2 = _
    by_cases ht1 : t1 ≠ ""
    · rw [if_pos ht1] at hstep
      rcases GoOut.bind_eq_ret hstep with ⟨r, hr, hpure⟩
      have hfr := net_netdev_frame goarch d c r hr
      cases hor : r.1 with
      | some l =>
        rw [hor] at hpure
        simp only [GoOut.pure_eq] at hpure
        cases hpure
        exact hfr
      | none =>
        rw [hor] at hpure
        simp only [GoOut.pure_eq] at hpure
        cases hpure
        exact hfr
    · rw [if_neg ht1] at hstep
      simp only [GoOut.pure_eq] at hstep
      cases hstep
      rfl

theorem rng_frame (goarch : String) (d : RngDevice) (c : Config)
    (out : List String × Config) (h : RngDevice.QemuParams goarch d c = .ret out) :
    FrameOf c out.2 := by
  unfold RngDevice.QemuParams at h
  simp only [GoOut.monad_bind_eq] at h
  rcases GoOut.bind_eq_ret h with ⟨rs, _, h⟩
  simp only [GoOut.pure_eq] at h
  cases h
  rfl

theorem serial_frame (goarch : String) (d : SerialDevice) (c : Config)
    (out : List String × Config) (h : SerialDevice.QemuParams goarch d c = .ret out) :
    FrameOf c out.2 := by
  unfold SerialDevice.QemuParams at h
  simp only [GoOut.monad_bind_eq] at h
  rcases GoOut.bind_eq_ret h with ⟨dp, _, h⟩
  simp only [GoOut.pure_eq] at h
  cases h
  rfl

theorem uefi_frame (d : UEFIFirmwareDevice) (c : Config)
    (out : List String × Config) (h : UEFIFirmwareDevice.QemuParams d c = .ret out) :
    FrameOf c out.2 := by
  unfold UEFIFirmwareDevice.QemuParams at h
  simp only [GoOut.pure_eq] at h
  cases h
  rfl

theorem pcieRootPort_frame (goarch : String) (d : PCIeRootPortDevice)
    (c : Config) (out : List String × Config)
    (h : PCIeRootPortDevice.QemuParams goarch d c = .ret out) : FrameOf c out.2 := by
  unfold PCIeRootPortDevice.QemuParams at h
  simp only [GoOut.pure_eq] at h
  cases h
  rfl

theorem scsiController_frame (goarch : String) (d : SCSIControllerDevice)
    (c : Config) (out : List String × Config)
    (h : SCSIControllerDevice.QemuParams goarch d c = .ret out) : FrameOf c out.2 := by
  unfold SCSIControllerDevice.QemuParams at h
  simp only [GoOut.monad_bind_eq] at h
  rcases GoOut.bind_eq_ret h with ⟨rs, _, h⟩
  simp only [GoOut.pure_eq] at h
  cases h
  rfl

theorem ideController_frame (d : IDEControllerDevice) (c : Config)
    (out : List String × Config) (h : IDEControllerDevice.QemuParams d c = .ret out) :
    FrameOf c out.2 := by
  unfold IDEControllerDevice.QemuParams at h
  simp only [GoOut.monad_bind_eq] at h
  rcases GoOut.bind_eq_ret h with ⟨rs, _, h⟩
  simp only [GoOut.pure_eq] at h
  cases h
  rfl

theorem usbController_frame (d : USBControllerDevice) (c : Config)
    (out : List String × Config) (h : USBControllerDevice.QemuParams d c = .ret out) :
    FrameOf c out.2 := by
  unfold USBControllerDevice.QemuParams at h
  simp only [GoOut.monad_bind_eq] at h
  rcases GoOut.bind_eq_ret h with ⟨rs, _, h⟩
  simp only [GoOut.pure_eq] at h
  cases h
  rfl

theorem spice_frame (d : SpiceDevice) (c : Config)
    (out : List String × Config) (h : SpiceDevice.QemuParams d c = .ret out) :
    FrameOf c out.2 := by
  unfold SpiceDevice.QemuParams at h
  simp only [GoOut.pure_eq] at h
  cases h
  rfl

theorem tpm_frame (goarch : String) (d : TPMDevice) (c : Config)
    (out : List String × Config) (h : TPMDevice.QemuParams goarch d c = .ret out) :
    FrameOf c out.2 := by
  unfold TPMDevice.QemuParams at h
  simp only [GoOut.pure_eq] at h
  cases h
  rfl

theorem device_frame (goarch : String) (d : Device) (c : Config)
    (out : List String × Config) (h : Device.QemuParams goarch d c = .ret out) :
    FrameOf c out.2 := by
  cases d with
  | blk d => exact blk_frame goarch d c out h
  | char d => exact char_frame goarch d c out h
  | legacySerial d => exact legacySerial_frame d c out h
  | monitor d => exact monitor_frame d c out h
  | net d => exact net_frame goarch d c out h
  | rng d => exact rng_frame goarch d c out h
  | serial d => exact serial_frame goarch d c out h
  | uefi d => exact uefi_frame d c out h
  | pcieRootPort d => exact pcieRootPort_frame goarch d c out h
  | scsiController d => exact scsiController_frame goarch d c out h
  | ideController d => exact ideController_frame d c out h
  | usbController d => exact usbController_frame d c out h
  | spice d => exact spice_frame d c out h
  | tpm d => exact tpm_frame goarch d c out h

/-- `seg` is the token block some state of the run produced for device `d`. -/
def RenderedBy (goarch : String) (d : Device) (seg : List String) : Prop :=
  ∃ c c', Device.QemuParams goarch d c = .ret (seg, c')

/-- Full characterisation of the validate-and-render loop:
(1) the error accumulator collects exactly one message per failing device, in
order, and iteration never stops early; (2) the loop only appends to
`qemuParams` and only mutates `pciBusSlots`/`fds`; (3) the appended tokens
are the concatenation of per-device blocks, one (possibly empty for invalid
devices) block per device, in device order. -/
theorem appendDevicesLoop_spec (goarch : String) (ds : List Device) :
    ∀ (cfg : Config) (errs : List String) (out : Config × List String),
      appendDevicesLoop goarch ds cfg errs = .ret out →
      out.2 = errs ++ ds.filterMap Device.Valid ∧
      out.1 = { cfg with pciBusSlots := out.1.pciBusSlots, fds := out.1.fds,
                         qemuParams := out.1.qemuParams } ∧
      ∃ segs : List (List String),
        out.1.qemuParams = cfg.qemuParams ++ segs.flatten ∧
        List.Forall₂ (fun d seg => Device.Valid d = none → RenderedBy goarch d seg) ds segs := by
  induction ds with
  | nil =>
    intro cfg errs out h
    simp only [appendDevicesLoop] at h
    cases h
    refine ⟨by simp, rfl, [], by simp, List.Forall₂.nil⟩
  | cons d ds ih =>
    intro cfg errs out h
    simp only [appendDevicesLoop] at h
    cases hv : Device.Valid d with
    | some e =>
      rw [hv] at h
      rcases ih cfg (errs ++ [e]) out h with ⟨h1, h2, segs, h3, h4⟩
      refine ⟨?_, h2, [] :: segs, by simpa using h3, ?_⟩
      · rw [h1]
        simp [List.filterMap_cons, hv]
      · exact List.Forall₂.cons (fun hc => absurd hc (by simp [hv])) h4
    | none =>
      rw [hv] at h
      simp only [GoOut.monad_bind_eq] at h
      rcases GoOut.bind_eq_ret h with ⟨r, hr, h⟩
      have hfr := device_frame goarch d cfg r hr
      rcases ih _ errs out h with ⟨h1, h2, segs, h3, h4⟩
      refine ⟨?_, ?_, r.1 :: segs, ?_, ?_⟩
      · rw [h1]
        simp [List.filterMap_cons, hv]
      · rw [h2, hfr]
      · rw [h3]
        have hq : ({ r.2 with qemuParams := r.2.qemuParams ++ r.1 } : Config).qemuParams =
            cfg.qemuParams ++ r.1 := by
          rw [hfr]
        rw [hq]
        simp
      · exact List.Forall₂.cons (fun _ => ⟨cfg, r.2, by rw [hr]⟩) h4

/-- One pipeline stage only appends to `qemuParams` (and may touch the
allocator state and attached fds); every other field — the device
collections, `devices`, `SMP`, `SMBIOS`, `QMPSockets`, … — is untouched. -/
def PipeStep (c d : Config) : Prop :=
  ∃ ext, d = { c with qemuParams := c.qemuParams ++ ext,
                      pciBusSlots := d.pciBusSlots, fds := d.fds }

theorem PipeStep.rfl' (c : Config) : PipeStep c c := ⟨[], by simp⟩

theorem PipeStep.trans {c d e : Config} (h1 : PipeStep c d) (h2 : PipeStep d e) :
    PipeStep c e := by
  obtain ⟨x1, hx1⟩ := h1
  obtain ⟨x2, hx2⟩ := h2
  refine ⟨x1 ++ x2, ?_⟩
  rw [hx2, hx1]
  simp [List.append_assoc]

theorem pipeStep_ite (c : Config) (p : Prop) [Decidable p] (ts : List String) :
    PipeStep c (if p then { c with qemuParams := c.qemuParams ++ ts } else c) := by
  split
  · exact ⟨ts, rfl⟩
  · exact PipeStep.rfl' c

theorem appendName_step (c : Config) : PipeStep c c.appendName := by
  unfold Config.appendName
  exact pipeStep_ite c _ _

theorem appendUUID_step (c : Config) : PipeStep c c.appendUUID := by
  unfold Config.appendUUID
  exact pipeStep_ite c _ _

theorem appendCPUModel_step (c : Config) : PipeStep c c.appendCPUModel := by
  unfold Config.appendCPUModel
  exact pipeStep_ite c _ _

theorem appendMemory_step (c : Config) : PipeStep c c.appendMemory := by
  unfold Config.appendMemory
  exact pipeStep_ite c _ _

theorem appendRTC_step (c : Config) : PipeStep c c.appendRTC := by
  unfold Config.appendRTC
  split
  · exact PipeStep.rfl' c
  · exact ⟨_, rfl⟩

theorem appendGlobalParams_step (c : Config) : PipeStep c c.appendGlobalParams :=
  ⟨_, rfl⟩

theorem appendPFlashParam_step (c : Config) : PipeStep c c.appendPFlashParam :=
  ⟨_, rfl⟩

theorem appendVGA_step (c : Config) : PipeStep c c.appendVGA := by
  unfold Config.appendVGA
  exact pipeStep_ite c _ _

theorem appendMemoryKnobs_step (goarch : String) (c : Config) :
    PipeStep c (c.appendMemoryKnobs goarch) := by
  unfold Config.appendMemoryKnobs
  split
  · exact PipeStep.rfl' c
  · dsimp only
    repeat' split
    all_goals exact ⟨_, by simp; rfl⟩

theorem appendKnobs_step (goarch : String) (c : Config) :
    PipeStep c (c.appendKnobs goarch) := by
  unfold Config.appendKnobs
  refine PipeStep.trans (PipeStep.trans (PipeStep.trans (PipeStep.trans (PipeStep.trans
    (PipeStep.trans (PipeStep.trans (PipeStep.trans (PipeStep.trans (PipeStep.trans
      (appendMemoryKnobs_step goarch c) (pipeStep_ite _ _ _)) (pipeStep_ite _ _ _))
      (pipeStep_ite _ _ _)) (pipeStep_ite _ _ _)) (pipeStep_ite _ _ _))
      (pipeStep_ite _ _ _)) (pipeStep_ite _ _ _)) (pipeStep_ite _ _ _))
      (pipeStep_ite _ _ _)) (pipeStep_ite _ _ _)

theorem appendKernel_step (c : Config) : PipeStep c c.appendKernel := by
  unfold Config.appendKernel
  split
  · exact PipeStep.trans (PipeStep.trans ⟨_, rfl⟩ (pipeStep_ite _ _ _)) (pipeStep_ite _ _ _)
  · exact PipeStep.rfl' c

theorem appendBios_step (c : Config) : PipeStep c c.appendBios := by
  unfold Config.appendBios
  exact pipeStep_ite c _ _

theorem appendIOThreads_step (c : Config) : PipeStep c c.appendIOThreads :=
  ⟨_, rfl⟩

theorem appendIncoming_step (c : Config) : PipeStep c c.appendIncoming := by
  unfold Config.appendIncoming
  split
  · exact ⟨_, rfl⟩
  · split
    · exact ⟨_, rfl⟩
    · split
      · exact ⟨_, rfl⟩
      · exact PipeStep.rfl' c

theorem appendPidFile_step (c : Config) : PipeStep c c.appendPidFile := by
  unfold Config.appendPidFile
  exact pipeStep_ite c _ _

theorem appendLogFile_step (c : Config) : PipeStep c c.appendLogFile := by
  unfold Config.appendLogFile
  exact pipeStep_ite c _ _

theorem appendFwCfg_step (c : Config) : PipeStep c c.appendFwCfg :=
  ⟨_, rfl⟩

theorem appendSeccompSandbox_step (c : Config) : PipeStep c c.appendSeccompSandbox := by
  unfold Config.appendSeccompSandbox
  exact pipeStep_ite c _ _

theorem appendMachine_step (c d : Config) (h : c.appendMachine = .ret d) : PipeStep c d := by
  unfold Config.appendMachine at h
  by_cases ht : c.Machine.Type' ≠ ""
  · rw [if_pos ht] at h
    rcases GoOut.bind_eq_ret h with ⟨m1, _, h⟩
    rcases GoOut.bind_eq_ret h with ⟨m2, _, h⟩
    rcases GoOut.bind_eq_ret h with ⟨p1, _, h⟩
    rcases GoOut.bind_eq_ret h with ⟨p2, _, h⟩
    rcases GoOut.bind_eq_ret h with ⟨p3, _, h⟩
    rcases GoOut.bind_eq_ret h with ⟨p4, _, h⟩
    rcases GoOut.bind_eq_ret h with ⟨p5, _, h⟩
    rcases GoOut.bind_eq_ret h with ⟨p6, _, h⟩
    rcases GoOut.bind_eq_ret h with ⟨p7, _, h⟩
    rcases GoOut.bind_eq_ret h with ⟨p8, _, h⟩
    rcases GoOut.bind_eq_ret h with ⟨p9, _, h⟩
    simp only [GoOut.pure_eq] at h
    cases h
    exact ⟨_, rfl⟩
  · rw [if_neg ht] at h
    simp only [GoOut.pure_eq] at h
    cases h
    exact PipeStep.rfl' c

theorem appendSMBIOSInfo_step (c : Config) (h : c.SMBIOS.Valid = none) :
    c.appendSMBIOSInfo = ({ c with qemuParams := c.qemuParams ++ c.SMBIOS.QemuParams }, none) := by
  unfold Config.appendSMBIOSInfo
  rw [h]

theorem appendQMPSocketsLoop_ok (qs : List QMPSocket) :
    ∀ (c : Config) (errs : List String), (∀ q ∈ qs, QMPSocket.Valid q = none) →
      (appendQMPSocketsLoop qs c errs).2 = errs ∧
      PipeStep c (appendQMPSocketsLoop qs c errs).1 := by
  induction qs with
  | nil => exact fun c errs _ => ⟨rfl, PipeStep.rfl' c⟩
  | cons q qs ih =>
    intro c errs hall
    have hq : QMPSocket.Valid q = none := hall q (by simp)
    simp only [appendQMPSocketsLoop, hq]
    rcases ih _ errs (fun p hp => hall p (by simp [hp])) with ⟨h1, h2⟩
    exact ⟨h1, PipeStep.trans ⟨_, rfl⟩ h2⟩

theorem appendQMPSockets_ok (c : Config) (h : ∀ q ∈ c.QMPSockets, QMPSocket.Valid q = none) :
    (c.appendQMPSockets).2 = none ∧ PipeStep c (c.appendQMPSockets).1 := by
  unfold Config.appendQMPSockets
  dsimp only
  rcases appendQMPSocketsLoop_ok c.QMPSockets c [] h with ⟨h1, h2⟩
  rw [h1]
  simp only [List.length_nil, gt_iff_lt, lt_irrefl, if_false]
  exact ⟨trivial, h2⟩

theorem appendSpice_eq (c : Config) :
    c.appendSpice = { c with devices := c.devices ++
      (if c.SpiceDevice.Port ≠ "" ∨ c.SpiceDevice.TLSPort ≠ "" then
        [Device.spice c.SpiceDevice] else []) } := by
  unfold Config.appendSpice
  split
  · rfl
  · simp

theorem appendTPM_eq (c : Config) :
    c.appendTPM = { c with devices := c.devices ++
      (if c.TPM.ID ≠ "" then [Device.tpm c.TPM] else []) } := by
  unfold Config.appendTPM
  split
  · rfl
  · simp

theorem appendCPUs_ok (c : Config)
    (h : ¬ (c.SMP.CPUs > 0 ∧ c.SMP.MaxCPUs > 0 ∧ c.SMP.MaxCPUs < c.SMP.CPUs)) :
    (c.appendCPUs).2 = none ∧ PipeStep c (c.appendCPUs).1 := by
  unfold Config.appendCPUs
  by_cases h1 : c.SMP.CPUs > 0
  · rw [if_pos h1]
    rw [if_neg (by intro hc; exact h ⟨h1, hc⟩)]
    exact ⟨rfl, ⟨_, rfl⟩⟩
  · rw [if_neg h1]
    exact ⟨rfl, PipeStep.rfl' c⟩

theorem appendCPUs_err (c : Config) (h1 : c.SMP.CPUs > 0)
    (h2 : c.SMP.MaxCPUs > 0 ∧ c.SMP.MaxCPUs < c.SMP.CPUs) :
    (c.appendCPUs) = (c, some ("MaxCPUs " ++ toString c.SMP.MaxCPUs ++
      " must be equal to or greater than CPUs " ++ toString c.SMP.CPUs)) := by
  unfold Config.appendCPUs
  rw [if_pos h1, if_pos h2]

/-! ## Field preservation along the pipeline -/

theorem PipeStep.q_ext {c d : Config} (h : PipeStep c d) :
    ∃ ext, d.qemuParams = c.qemuParams ++ ext := by
  obtain ⟨x, hx⟩ := h
  exact ⟨x, by rw [hx]⟩

theorem PipeStep.devices_eq {c d : Config} (h : PipeStep c d) : d.devices = c.devices := by
  obtain ⟨x, hx⟩ := h
  rw [hx]

theorem PipeStep.SMP_eq {c d : Config} (h : PipeStep c d) : d.SMP = c.SMP := by
  obtain ⟨x, hx⟩ := h
  rw [hx]

theorem PipeStep.SpiceDevice_eq {c d : Config} (h : PipeStep c d) :
    d.SpiceDevice = c.SpiceDevice := by
  obtain ⟨x, hx⟩ := h
  rw [hx]

theorem PipeStep.TPM_eq {c d : Config} (h : PipeStep c d) : d.TPM = c.TPM := by
  obtain ⟨x, hx⟩ := h
  rw [hx]

theorem PipeStep.SMBIOS_eq {c d : Config} (h : PipeStep c d) : d.SMBIOS = c.SMBIOS := by
  obtain ⟨x, hx⟩ := h
  rw [hx]

theorem PipeStep.QMPSockets_eq {c d : Config} (h : PipeStep c d) :
    d.QMPSockets = c.QMPSockets := by
  obtain ⟨x, hx⟩ := h
  rw [hx]

theorem PipeStep.dfc_eq {c d : Config} (h : PipeStep c d) :
    devicesFromCollections d = devicesFromCollections c := by
  obtain ⟨x, hx⟩ := h
  rw [hx]
  rfl

/-- `appendSpice` only appends to `devices`; the block it appends is
determined by the `SpiceDevice` field. -/
theorem appendSpice_fields (c : Config) :
    c.appendSpice = { c with devices := c.devices ++
      (if c.SpiceDevice.Port ≠ "" ∨ c.SpiceDevice.TLSPort ≠ "" then
        [Device.spice c.SpiceDevice] else []) } :=
  appendSpice_eq c

theorem appendTPM_fields (c : Config) :
    c.appendTPM = { c with devices := c.devices ++
      (if c.TPM.ID ≠ "" then [Device.tpm c.TPM] else []) } :=
  appendTPM_eq c

/-- The QMPSocket loop never touches anything but `qemuParams`, whether or
not the sockets validate. -/
theorem appendQMPSocketsLoop_pipe (qs : List QMPSocket) :
    ∀ (c : Config) (errs : List String),
      PipeStep c (appendQMPSocketsLoop qs c errs).1 := by
  induction qs with
  | nil => exact fun c errs => PipeStep.rfl' c
  | cons q qs ih =>
    intro c errs
    simp only [appendQMPSocketsLoop]
    cases hq : QMPSocket.Valid q with
    | some e => exact ih c (errs ++ [e])
    | none => exact PipeStep.trans ⟨_, rfl⟩ (ih _ errs)

theorem appendQMPSockets_fst (c : Config) :
    (c.appendQMPSockets).1 = (appendQMPSocketsLoop c.QMPSockets c []).1 := by
  unfold Config.appendQMPSockets
  dsimp only
  split <;> rfl

theorem appendQMPSockets_pipe (c : Config) : PipeStep c (c.appendQMPSockets).1 := by
  rw [appendQMPSockets_fst]
  exact appendQMPSocketsLoop_pipe c.QMPSockets c []

/-- When `appendSMBIOSInfo` reports no error the SMBIOS info validated and
only `qemuParams` was extended. -/
theorem appendSMBIOSInfo_none {c : Config} (h : (c.appendSMBIOSInfo).2 = none) :
    c.SMBIOS.Valid = none ∧
    (c.appendSMBIOSInfo).1 =
      { c with qemuParams := c.qemuParams ++ c.SMBIOS.QemuParams } := by
  cases hv : c.SMBIOS.Valid with
  | some e =>
    exfalso
    unfold Config.appendSMBIOSInfo at h
    rw [hv] at h
    simp at h
  | none =>
    refine ⟨rfl, ?_⟩
    unfold Config.appendSMBIOSInfo
    rw [hv]

theorem appendSMBIOSInfo_pipe {c : Config} (h : (c.appendSMBIOSInfo).2 = none) :
    PipeStep c (c.appendSMBIOSInfo).1 := by
  rw [(appendSMBIOSInfo_none h).2]
  exact ⟨_, rfl⟩

/-- `appendCPUs` never touches anything but `qemuParams` in the config it
hands back, error or not. -/
theorem appendCPUs_pipe (c : Config) : PipeStep c (c.appendCPUs).1 := by
  unfold Config.appendCPUs
  dsimp only
  repeat' split
  all_goals first
    | exact PipeStep.rfl' c
    | exact ⟨_, rfl⟩

/-- The devices rendered by `appendDevices` on a config `c` as it stands at
the device stage: the explicit `devices` list, the spice and TPM devices
appended from their dedicated fields, then the device collections in
`reflect.VisibleFields` order (controllers first). -/
def allConfiguredDevices (c : Config) : List Device :=
  c.devices ++
  (if c.SpiceDevice.Port ≠ "" ∨ c.SpiceDevice.TLSPort ≠ "" then
    [Device.spice c.SpiceDevice] else []) ++
  (if c.TPM.ID ≠ "" then [Device.tpm c.TPM] else []) ++
  devicesFromCollections c

theorem appendSpice_devices (c : Config) :
    (c.appendSpice).devices = c.devices ++
      (if c.SpiceDevice.Port ≠ "" ∨ c.SpiceDevice.TLSPort ≠ "" then
        [Device.spice c.SpiceDevice] else []) := by
  rw [appendSpice_eq]

theorem appendSpice_q (c : Config) : (c.appendSpice).qemuParams = c.qemuParams := by
  rw [appendSpice_eq]

theorem appendSpice_TPM (c : Config) : (c.appendSpice).TPM = c.TPM := by
  rw [appendSpice_eq]

theorem appendSpice_SMP (c : Config) : (c.appendSpice).SMP = c.SMP := by
  rw [appendSpice_eq]

theorem appendSpice_dfc (c : Config) :
    devicesFromCollections c.appendSpice = devicesFromCollections c := by
  rw [appendSpice_eq]
  rfl

theorem appendTPM_devices (c : Config) :
    (c.appendTPM).devices = c.devices ++
      (if c.TPM.ID ≠ "" then [Device.tpm c.TPM] else []) := by
  rw [appendTPM_eq]

theorem appendTPM_q (c : Config) : (c.appendTPM).qemuParams = c.qemuParams := by
  rw [appendTPM_eq]

theorem appendTPM_SMP (c : Config) : (c.appendTPM).SMP = c.SMP := by
  rw [appendTPM_eq]

theorem appendTPM_dfc (c : Config) :
    devicesFromCollections c.appendTPM = devicesFromCollections c := by
  rw [appendTPM_eq]
  rfl

/-- Success-path decomposition of `ConfigureParams`: when the pipeline
returns with a nil error, every configured device passed validation, and the
returned token list consists of the non-device stage tokens with one
(possibly empty) contiguous token block per configured device in the middle,
in configuration order. -/
theorem ConfigureParams_ret_none (goarch : String) (c : Config) (toks : List String)
    (h : ConfigureParams goarch c = .ret (toks, none)) :
    (allConfiguredDevices c).filterMap Device.Valid = [] ∧
    ∃ pre segs post,
      toks = c.qemuParams ++ pre ++ segs.flatten ++ post ∧
      List.Forall₂ (fun d seg => Device.Valid d = none → RenderedBy goarch d seg)
        (allConfiguredDevices c) segs := by
  unfold ConfigureParams at h
  simp only [GoOut.monad_bind_eq, GoOut.pure_eq] at h
  rcases GoOut.bind_eq_ret h with ⟨c3, hmach, h⟩
  split at h
  · simp at h
  rename_i hsmb
  split at h
  · simp at h
  rename_i hqmp
  rcases GoOut.bind_eq_ret h with ⟨rd, hdev, h⟩
  split at h
  · simp at h
  rename_i hrd2
  split at h
  · simp at h
  rename_i hrc2
  simp only [GoOut.ret.injEq, Prod.mk.injEq, and_true] at h
  unfold Config.appendDevices at hdev
  simp only [GoOut.monad_bind_eq, GoOut.pure_eq] at hdev
  rcases GoOut.bind_eq_ret hdev with ⟨r, hloop, hdev⟩
  split at hdev
  · rename_i hlen
    simp only [GoOut.ret.injEq] at hdev
    rw [← hdev] at hrd2
    simp at hrd2
  rename_i hlen
  simp only [GoOut.ret.injEq] at hdev
  have hr2 : r.2 = [] := List.length_eq_zero.mp (by omega)
  obtain ⟨h1, h2, segs, h3, h4⟩ := appendDevicesLoop_spec goarch _ _ [] r hloop
  dsimp only at h3
  have hP4 : PipeStep c (Config.appendCPUModel c3) :=
    PipeStep.trans (PipeStep.trans (PipeStep.trans (appendName_step c)
      (appendUUID_step _)) (appendMachine_step _ c3 hmach)) (appendCPUModel_step c3)
  have hSdev : (Config.appendSpice (Config.appendCPUModel c3)).devices =
      c.devices ++ (if c.SpiceDevice.Port ≠ "" ∨ c.SpiceDevice.TLSPort ≠ "" then
        [Device.spice c.SpiceDevice] else []) := by
    rw [appendSpice_devices]
    rw [hP4.devices_eq, hP4.SpiceDevice_eq]
  have hTdev : (Config.appendTPM (Config.appendSpice (Config.appendCPUModel c3))).devices =
      c.devices ++ (if c.SpiceDevice.Port ≠ "" ∨ c.SpiceDevice.TLSPort ≠ "" then
        [Device.spice c.SpiceDevice] else []) ++
      (if c.TPM.ID ≠ "" then [Device.tpm c.TPM] else []) := by
    rw [appendTPM_devices, hSdev, appendSpice_TPM, hP4.TPM_eq]
  have hP6M : PipeStep (Config.appendTPM (Config.appendSpice (Config.appendCPUModel c3)))
      (Config.appendMemory ((Config.appendQMPSockets
        ((Config.appendSMBIOSInfo (Config.appendTPM (Config.appendSpice
          (Config.appendCPUModel c3)))).1)).1)) :=
    PipeStep.trans (PipeStep.trans (appendSMBIOSInfo_pipe hsmb)
      (appendQMPSockets_pipe _)) (appendMemory_step _)
  have hMdev := hP6M.devices_eq.trans hTdev
  have hMdfc : devicesFromCollections (Config.appendMemory ((Config.appendQMPSockets
      ((Config.appendSMBIOSInfo (Config.appendTPM (Config.appendSpice
        (Config.appendCPUModel c3)))).1)).1)) = devicesFromCollections c := by
    rw [hP6M.dfc_eq, appendTPM_dfc, appendSpice_dfc, hP4.dfc_eq]
  have hds : (Config.appendMemory ((Config.appendQMPSockets
      ((Config.appendSMBIOSInfo (Config.appendTPM (Config.appendSpice
        (Config.appendCPUModel c3)))).1)).1)).devices ++
      devicesFromCollections (Config.appendMemory ((Config.appendQMPSockets
      ((Config.appendSMBIOSInfo (Config.appendTPM (Config.appendSpice
        (Config.appendCPUModel c3)))).1)).1)) = allConfiguredDevices c := by
    rw [hMdev, hMdfc]
    rfl
  obtain ⟨pre1, hpre1⟩ := hP4.q_ext
  obtain ⟨pre2, hpre2⟩ := hP6M.q_ext
  have q1 := appendRTC_step rd.1
  have q2 := PipeStep.trans q1 (appendGlobalParams_step _)
  have q3 := PipeStep.trans q2 (appendPFlashParam_step _)
  have q4 := PipeStep.trans q3 (appendVGA_step _)
  have q5 := PipeStep.trans q4 (appendKnobs_step goarch _)
  have q6 := PipeStep.trans q5 (appendKernel_step _)
  have q7 := PipeStep.trans q6 (appendBios_step _)
  have q8 := PipeStep.trans q7 (appendIOThreads_step _)
  have q9 := PipeStep.trans q8 (appendIncoming_step _)
  have q10 := PipeStep.trans q9 (appendPidFile_step _)
  have q11 := PipeStep.trans q10 (appendLogFile_step _)
  have q12 := PipeStep.trans q11 (appendFwCfg_step _)
  have q13 := PipeStep.trans q12 (appendSeccompSandbox_step _)
  have q14 := PipeStep.trans q13 (appendCPUs_pipe _)
  obtain ⟨post, hpost⟩ := q14.q_ext
  have hrd1 : rd.1 = r.1 := by rw [← hdev]
  refine ⟨?_, pre1 ++ pre2, segs, post, ?_, ?_⟩
  · rw [← hds]
    rw [hr2] at h1
    simpa using h1.symm
  · rw [← h, hpost, hrd1, h3, hpre2]
    rw [appendTPM_q, appendSpice_q, hpre1]
    simp [List.append_assoc]
  · rw [← hds]
    exact h4

/-! ## Splitting a rendering plan along the category structure -/

theorem forall₂_append_split {α β : Type} {R : α → β → Prop} :
    ∀ {l₁ l₂ : List α} {u : List β}, List.Forall₂ R (l₁ ++ l₂) u →
      ∃ u₁ u₂, u = u₁ ++ u₂ ∧ List.Forall₂ R l₁ u₁ ∧ List.Forall₂ R l₂ u₂ := by
  intro l₁
  induction l₁ with
  | nil => exact fun h => ⟨[], _, rfl, List.Forall₂.nil, h⟩
  | cons a l ih =>
    intro l₂ u h
    cases h with
    | cons hr h =>
      rcases ih h with ⟨u₁, u₂, rfl, hu1, hu2⟩
      exact ⟨_ :: u₁, u₂, rfl, List.Forall₂.cons hr hu1, hu2⟩

theorem forall₂_singleton_left {α β : Type} {R : α → β → Prop} {a : α} {u : List β}
    (h : List.Forall₂ R [a] u) : ∃ b, u = [b] ∧ R a b := by
  cases h with
  | cons hr h =>
    cases h
    exact ⟨_, rfl, hr⟩

theorem forall₂_strengthen {α β : Type} {V : α → Prop} {R : α → β → Prop} :
    ∀ {l : List α} {u : List β}, List.Forall₂ (fun a b => V a → R a b) l u →
      (∀ a ∈ l, V a) → List.Forall₂ R l u := by
  intro l
  induction l with
  | nil =>
    intro u h hv
    cases h
    exact List.Forall₂.nil
  | cons a t ih =>
    intro u h hv
    cases h with
    | cons hr h =>
      exact List.Forall₂.cons (hr (hv a (by simp)))
        (ih h (fun x hx => hv x (by simp [hx])))

/-- C5 (corrected): on a run that returns a nil error, the non-controller
device categories render in the sub-order RNG, block, network, character,
legacy-serial, generic-serial, monitor, firmware-flash (UEFI) — the
declaration order of the collection fields — not the order claimed. -/
theorem C5_noncontroller_suborder (goarch : String) (c : Config) (toks : List String)
    (h : ConfigureParams goarch c = .ret (toks, none)) :
    ∃ (pre post : List String) (sRng sBlk sNet sChar sLS sSer sMon sUEFI : List (List String)),
      toks = pre ++ sRng.flatten ++ sBlk.flatten ++ sNet.flatten ++ sChar.flatten ++
        sLS.flatten ++ sSer.flatten ++ sMon.flatten ++ sUEFI.flatten ++ post ∧
      List.Forall₂ (RenderedBy goarch) (c.RngDevices.map Device.rng) sRng ∧
      List.Forall₂ (RenderedBy goarch) (c.BlkDevices.map Device.blk) sBlk ∧
      List.Forall₂ (RenderedBy goarch) (c.NetDevices.map Device.net) sNet ∧
      List.Forall₂ (RenderedBy goarch) (c.CharDevices.map Device.char) sChar ∧
      List.Forall₂ (RenderedBy goarch) (c.LegacySerialDevices.map Device.legacySerial) sLS ∧
      List.Forall₂ (RenderedBy goarch) (c.SerialDevices.map Device.serial) sSer ∧
      List.Forall₂ (RenderedBy goarch) (c.MonitorDevices.map Device.monitor) sMon ∧
      List.Forall₂ (RenderedBy goarch) (c.UEFIFirmwareDevices.map Device.uefi) sUEFI := by
  obtain ⟨hval, pre0, segs, post0, htoks, hfa⟩ := ConfigureParams_ret_none goarch c toks h
  have hall := List.filterMap_eq_nil_iff.mp hval
  unfold allConfiguredDevices devicesFromCollections at hfa
  simp only [List.append_assoc] at hfa
  obtain ⟨s1, u, rfl, hc1, hfa⟩ := forall₂_append_split hfa
  obtain ⟨s2, u, rfl, hc2, hfa⟩ := forall₂_append_split hfa
  obtain ⟨s3, u, rfl, hc3, hfa⟩ := forall₂_append_split hfa
  obtain ⟨s4, u, rfl, hc4, hfa⟩ := forall₂_append_split hfa
  obtain ⟨s5, u, rfl, hc5, hfa⟩ := forall₂_append_split hfa
  obtain ⟨s6, u, rfl, hc6, hfa⟩ := forall₂_append_split hfa
  obtain ⟨s7, u, rfl, hc7, hfa⟩ := forall₂_append_split hfa
  obtain ⟨s8, u, rfl, h8, hfa⟩ := forall₂_append_split hfa
  obtain ⟨s9, u, rfl, h9, hfa⟩ := forall₂_append_split hfa
  obtain ⟨s10, u, rfl, h10, hfa⟩ := forall₂_append_split hfa
  obtain ⟨s11, u, rfl, h11, hfa⟩ := forall₂_append_split hfa
  obtain ⟨s12, u, rfl, h12, hfa⟩ := forall₂_append_split hfa
  obtain ⟨s13, u, rfl, h13, hfa⟩ := forall₂_append_split hfa
  obtain ⟨s14, u, rfl, h14, hfa⟩ := forall₂_append_split hfa
  have hvRng : ∀ d ∈ c.RngDevices.map Device.rng, Device.Valid d = none := fun d hd =>
    hall d (by
      unfold allConfiguredDevices devicesFromCollections
      simp only [List.mem_append]
      tauto)
  have hvBlk : ∀ d ∈ c.BlkDevices.map Device.blk, Device.Valid d = none := fun d hd =>
    hall d (by
      unfold allConfiguredDevices devicesFromCollections
      simp only [List.mem_append]
      tauto)
  have hvNet : ∀ d ∈ c.NetDevices.map Device.net, Device.Valid d = none := fun d hd =>
    hall d (by
      unfold allConfiguredDevices devicesFromCollections
      simp only [List.mem_append]
      tauto)
  have hvChar : ∀ d ∈ c.CharDevices.map Device.char, Device.Valid d = none := fun d hd =>
    hall d (by
      unfold allConfiguredDevices devicesFromCollections
      simp only [List.mem_append]
      tauto)
  have hvLS : ∀ d ∈ c.LegacySerialDevices.map Device.legacySerial,
      Device.Valid d = none := fun d hd =>
    hall d (by
      unfold allConfiguredDevices devicesFromCollections
      simp only [List.mem_append]
      tauto)
  have hvSer : ∀ d ∈ c.SerialDevices.map Device.serial, Device.Valid d = none := fun d hd =>
    hall d (by
      unfold allConfiguredDevices devicesFromCollections
      simp only [List.mem_append]
      tauto)
  have hvMon : ∀ d ∈ c.MonitorDevices.map Device.monitor, Device.Valid d = none := fun d hd =>
    hall d (by
      unfold allConfiguredDevices devicesFromCollections
      simp only [List.mem_append]
      tauto)
  have hvUefi : ∀ d ∈ c.UEFIFirmwareDevices.map Device.uefi, Device.Valid d = none :=
    fun d hd =>
    hall d (by
      unfold allConfiguredDevices devicesFromCollections
      simp only [List.mem_append]
      tauto)
  refine ⟨c.qemuParams ++ pre0 ++ (s1 ++ s2 ++ s3 ++ s4 ++ s5 ++ s6 ++ s7).flatten, post0,
    s8, s9, s10, s11, s12, s13, s14, u, ?_,
    forall₂_strengthen h8 hvRng, forall₂_strengthen h9 hvBlk,
    forall₂_strengthen h10 hvNet, forall₂_strengthen h11 hvChar,
    forall₂_strengthen h12 hvLS, forall₂_strengthen h13 hvSer,
    forall₂_strengthen h14 hvMon, forall₂_strengthen hfa hvUefi⟩
  rw [htoks]
  simp [List.flatten_append, List.append_assoc]

def rngC5 : RngDevice := { ID := "rng0", Driver := "virtio-rng" }

def blkC5 : BlockDevice :=
  { ID := "blk0", Driver := "virtio-blk", File := "/tmp/img",
    Interface := "none", Format := "qcow2" }

def cfgC5 : Config := { RngDevices := [rngC5], BlkDevices := [blkC5] }

def toksC5 : List String :=
  ["-object", "rng-random,id=rng0", "-device", "virtio-rng-pci,rng=rng0,addr=0x1e",
   "-drive", "file=/tmp/img,id=blk0,if=none,format=qcow2", "-device",
   "virtio-blk-pci,drive=blk0,serial=blk0,disable-modern=false,addr=0x1d,bus=pcie.0,scsi=off,config-wce=off"]

/-- C5 counterexample: a config with one valid RNG device and one valid block
device (and no other devices) renders the RNG device's tokens before the
block device's tokens, refuting the claimed sub-order in which block devices
come first and RNG devices come after character, legacy-serial, monitor and
network devices. -/
theorem C5_counterexample :
    ConfigureParams "amd64" cfgC5 = .ret (toksC5, none) ∧
    Device.Valid (Device.rng rngC5) = none ∧
    Device.Valid (Device.blk blkC5) = none ∧
    toksC5.indexOf "rng-random,id=rng0" <
      toksC5.indexOf "file=/tmp/img,id=blk0,if=none,format=qcow2" := by
  refine ⟨by decide, by decide, by decide, by decide⟩

/-- Witness: the corrected sub-order theorem instantiated on the concrete
RNG + block configuration. -/
theorem C5_noncontroller_suborder_witness :
    ∃ (pre post : List String) (sRng sBlk sNet sChar sLS sSer sMon sUEFI : List (List String)),
      toksC5 = pre ++ sRng.flatten ++ sBlk.flatten ++ sNet.flatten ++ sChar.flatten ++
        sLS.flatten ++ sSer.flatten ++ sMon.flatten ++ sUEFI.flatten ++ post ∧
      List.Forall₂ (RenderedBy "amd64") (cfgC5.RngDevices.map Device.rng) sRng ∧
      List.Forall₂ (RenderedBy "amd64") (cfgC5.BlkDevices.map Device.blk) sBlk ∧
      List.Forall₂ (RenderedBy "amd64") (cfgC5.NetDevices.map Device.net) sNet ∧
      List.Forall₂ (RenderedBy "amd64") (cfgC5.CharDevices.map Device.char) sChar ∧
      List.Forall₂ (RenderedBy "amd64") (cfgC5.LegacySerialDevices.map Device.legacySerial) sLS ∧
      List.Forall₂ (RenderedBy "amd64") (cfgC5.SerialDevices.map Device.serial) sSer ∧
      List.Forall₂ (RenderedBy "amd64") (cfgC5.MonitorDevices.map Device.monitor) sMon ∧
      List.Forall₂ (RenderedBy "amd64") (cfgC5.UEFIFirmwareDevices.map Device.uefi) sUEFI :=
  C5_noncontroller_suborder "amd64" cfgC5 toksC5 (by decide)

/-- The identifier a dependent device uses to reference a bus-controller
device. -/
def Device.controllerID : Device → Option String
  | .pcieRootPort d => some d.ID
  | .scsiController d => some d.ID
  | .ideController d => some d.ID
  | .usbController d => some d.ID
  | _ => none

/-- C6: for a Config with exactly one bus-controller device (of any of the
four controller kinds) and one block device referencing it, on a nil-error
run the controller's token block appears strictly before the block device's
token block. -/
theorem C6_controller_before_dependent (goarch : String) (c : Config) (toks : List String)
    (ctrl : Device) (b : BlockDevice)
    (hctrl : (c.PCIeRootPortDevices.map Device.pcieRootPort) ++
      (c.SCSIControllerDevices.map Device.scsiController) ++
      (c.IDEControllerDevices.map Device.ideController) ++
      (c.USBControllerDevices.map Device.usbController) = [ctrl])
    (hblk : c.BlkDevices = [b])
    (href : ∃ cid, Device.controllerID ctrl = some cid ∧ cid.data.isPrefixOf b.Bus.data = true)
    (h : ConfigureParams goarch c = .ret (toks, none)) :
    ∃ A ctoks B btoks E,
      toks = A ++ ctoks ++ B ++ btoks ++ E ∧
      RenderedBy goarch ctrl ctoks ∧
      RenderedBy goarch (Device.blk b) btoks := by
  obtain ⟨hval, pre0, segs, post0, htoks, hfa⟩ := ConfigureParams_ret_none goarch c toks h
  have hall := List.filterMap_eq_nil_iff.mp hval
  have hvc : Device.Valid ctrl = none := by
    refine hall ctrl ?_
    unfold allConfiguredDevices devicesFromCollections
    have hm : ctrl ∈ (c.PCIeRootPortDevices.map Device.pcieRootPort) ++
        (c.SCSIControllerDevices.map Device.scsiController) ++
        (c.IDEControllerDevices.map Device.ideController) ++
        (c.USBControllerDevices.map Device.usbController) := by
      rw [hctrl]
      simp
    simp only [List.mem_append] at hm ⊢
    tauto
  have hvb : Device.Valid (Device.blk b) = none := by
    refine hall (Device.blk b) ?_
    unfold allConfiguredDevices devicesFromCollections
    have hm : Device.blk b ∈ c.BlkDevices.map Device.blk := by
      rw [hblk]
      simp
    simp only [List.mem_append] at hm ⊢
    tauto
  unfold allConfiguredDevices devicesFromCollections at hfa
  rw [hctrl, hblk] at hfa
  simp only [List.map_cons, List.map_nil] at hfa
  simp only [List.append_assoc] at hfa
  obtain ⟨s1, u, rfl, hc1, hfa⟩ := forall₂_append_split hfa
  obtain ⟨s2, u, rfl, hc2, hfa⟩ := forall₂_append_split hfa
  obtain ⟨s3, u, rfl, hc3, hfa⟩ := forall₂_append_split hfa
  obtain ⟨sc, u, rfl, hcc, hfa⟩ := forall₂_append_split hfa
  obtain ⟨s5, u, rfl, hc5, hfa⟩ := forall₂_append_split hfa
  obtain ⟨sb, u, rfl, hcb, hfa⟩ := forall₂_append_split hfa
  obtain ⟨ct, rfl, hctR⟩ := forall₂_singleton_left hcc
  obtain ⟨bt, rfl, hbtR⟩ := forall₂_singleton_left hcb
  refine ⟨c.qemuParams ++ pre0 ++ (s1 ++ s2 ++ s3).flatten, ct, s5.flatten, bt,
    u.flatten ++ post0, ?_, hctR hvc, hbtR hvb⟩
  rw [htoks]
  simp [List.flatten_append, List.append_assoc]

def scsiC6 : SCSIControllerDevice := { ID := "scsi0" }

def blkC6 : BlockDevice :=
  { ID := "blk0", Driver := "scsi-hd", File := "/tmp/img",
    Interface := "none", Format := "qcow2", Bus := "scsi0.0" }

def cfgC6 : Config := { SCSIControllerDevices := [scsiC6], BlkDevices := [blkC6] }

def toksC6 : List String :=
  ["-device", "virtio-scsi-pci,id=scsi0,addr=0x1e,bus=pcie.0,disable-modern=false",
   "-drive", "file=/tmp/img,id=blk0,if=none,format=qcow2", "-device",
   "scsi-hd,drive=blk0,serial=blk0,bus=scsi0.0,scsi=off"]

/-- Witness: the controller-before-dependent theorem instantiated on a
concrete SCSI controller plus a block device on its bus. -/
theorem C6_controller_before_dependent_witness :
    ∃ A ctoks B btoks E,
      toksC6 = A ++ ctoks ++ B ++ btoks ++ E ∧
      RenderedBy "amd64" (Device.scsiController scsiC6) ctoks ∧
      RenderedBy "amd64" (Device.blk blkC6) btoks :=
  C6_controller_before_dependent "amd64" cfgC6 toksC6 (Device.scsiController scsiC6) blkC6
    (by decide) rfl ⟨"scsi0", rfl, by decide⟩ (by decide)

theorem appendSpice_SMBIOS (c : Config) : (c.appendSpice).SMBIOS = c.SMBIOS := by
  rw [appendSpice_eq]

theorem appendSpice_QMPSockets (c : Config) : (c.appendSpice).QMPSockets = c.QMPSockets := by
  rw [appendSpice_eq]

theorem appendTPM_SMBIOS (c : Config) : (c.appendTPM).SMBIOS = c.SMBIOS := by
  rw [appendTPM_eq]

theorem appendTPM_QMPSockets (c : Config) : (c.appendTPM).QMPSockets = c.QMPSockets := by
  rw [appendTPM_eq]

/-- C1 (corrected): device validation does aggregate one message per failing
device without stopping at the first failure, and a failing device forces
empty tokens plus a non-nil error — but only when the earlier pipeline
stages (SMBIOS info, QMP sockets) pass; an earlier stage failure returns
that stage's error instead of the device aggregate. -/
theorem C1_device_error_aggregation (goarch : String) (c : Config)
    (out : List String × Option String)
    (hsmb : c.SMBIOS.Valid = none)
    (hqmp : ∀ q ∈ c.QMPSockets, QMPSocket.Valid q = none)
    (hfail : (allConfiguredDevices c).filterMap Device.Valid ≠ [])
    (h : ConfigureParams goarch c = .ret out) :
    out = ([], some ("Failed to append " ++
      toString ((allConfiguredDevices c).filterMap Device.Valid).length ++
      " devices: " ++ String.intercalate ", "
        ((allConfiguredDevices c).filterMap Device.Valid))) := by
  unfold ConfigureParams at h
  simp only [GoOut.monad_bind_eq, GoOut.pure_eq] at h
  rcases GoOut.bind_eq_ret h with ⟨c3, hmach, h⟩
  have hP4 : PipeStep c (Config.appendCPUModel c3) :=
    PipeStep.trans (PipeStep.trans (PipeStep.trans (appendName_step c)
      (appendUUID_step _)) (appendMachine_step _ c3 hmach)) (appendCPUModel_step c3)
  have hsmb5 : (Config.appendTPM (Config.appendSpice
      (Config.appendCPUModel c3))).SMBIOS = c.SMBIOS := by
    rw [appendTPM_SMBIOS, appendSpice_SMBIOS, hP4.SMBIOS_eq]
  have hsmbN : (Config.appendSMBIOSInfo (Config.appendTPM (Config.appendSpice
      (Config.appendCPUModel c3)))).2 = none := by
    unfold Config.appendSMBIOSInfo
    rw [hsmb5, hsmb]
  split at h
  · rename_i e heq
    exact Option.noConfusion (hsmbN.symm.trans heq)
  rename_i hsmbEq
  have hq_eq : ((Config.appendSMBIOSInfo (Config.appendTPM (Config.appendSpice
      (Config.appendCPUModel c3)))).1).QMPSockets = c.QMPSockets := by
    rw [(appendSMBIOSInfo_pipe hsmbEq).QMPSockets_eq, appendTPM_QMPSockets,
      appendSpice_QMPSockets, hP4.QMPSockets_eq]
  split at h
  · rename_i e heq
    have hqN := (appendQMPSockets_ok _ (by rw [hq_eq]; exact hqmp)).1
    exact Option.noConfusion (hqN.symm.trans heq)
  rename_i hqmpEq
  rcases GoOut.bind_eq_ret h with ⟨rd, hdev, h⟩
  unfold Config.appendDevices at hdev
  simp only [GoOut.monad_bind_eq, GoOut.pure_eq] at hdev
  rcases GoOut.bind_eq_ret hdev with ⟨r, hloop, hdev⟩
  obtain ⟨h1, h2, segs, h3, h4⟩ := appendDevicesLoop_spec goarch _ _ [] r hloop
  have hSdev : (Config.appendSpice (Config.appendCPUModel c3)).devices =
      c.devices ++ (if c.SpiceDevice.Port ≠ "" ∨ c.SpiceDevice.TLSPort ≠ "" then
        [Device.spice c.SpiceDevice] else []) := by
    rw [appendSpice_devices]
    rw [hP4.devices_eq, hP4.SpiceDevice_eq]
  have hTdev : (Config.appendTPM (Config.appendSpice (Config.appendCPUModel c3))).devices =
      c.devices ++ (if c.SpiceDevice.Port ≠ "" ∨ c.SpiceDevice.TLSPort ≠ "" then
        [Device.spice c.SpiceDevice] else []) ++
      (if c.TPM.ID ≠ "" then [Device.tpm c.TPM] else []) := by
    rw [appendTPM_devices, hSdev, appendSpice_TPM, hP4.TPM_eq]
  have hP6M : PipeStep (Config.appendTPM (Config.appendSpice (Config.appendCPUModel c3)))
      (Config.appendMemory ((Config.appendQMPSockets
        ((Config.appendSMBIOSInfo (Config.appendTPM (Config.appendSpice
          (Config.appendCPUModel c3)))).1)).1)) :=
    PipeStep.trans (PipeStep.trans (appendSMBIOSInfo_pipe hsmbEq)
      (appendQMPSockets_pipe _)) (appendMemory_step _)
  have hMdev := hP6M.devices_eq.trans hTdev
  have hMdfc : devicesFromCollections (Config.appendMemory ((Config.appendQMPSockets
      ((Config.appendSMBIOSInfo (Config.appendTPM (Config.appendSpice
        (Config.appendCPUModel c3)))).1)).1)) = devicesFromCollections c := by
    rw [hP6M.dfc_eq, appendTPM_dfc, appendSpice_dfc, hP4.dfc_eq]
  have hds : (Config.appendMemory ((Config.appendQMPSockets
      ((Config.appendSMBIOSInfo (Config.appendTPM (Config.appendSpice
        (Config.appendCPUModel c3)))).1)).1)).devices ++
      devicesFromCollections (Config.appendMemory ((Config.appendQMPSockets
      ((Config.appendSMBIOSInfo (Config.appendTPM (Config.appendSpice
        (Config.appendCPUModel c3)))).1)).1)) = allConfiguredDevices c := by
    rw [hMdev, hMdfc]
    rfl
  have hr2 : r.2 = (allConfiguredDevices c).filterMap Device.Valid := by
    rw [h1, hds]
    simp
  split at hdev
  · rename_i hlen
    simp only [GoOut.ret.injEq] at hdev
    split at h
    · rename_i e heq
      simp only [GoOut.ret.injEq] at h
      rw [← hdev] at heq
      simp only [Option.some.injEq] at heq
      rw [← h, ← heq, hr2]
    · rename_i heq
      rw [← hdev] at heq
      simp at heq
  · rename_i hlen
    have hnil : r.2 = [] := List.length_eq_zero.mp (by omega)
    rw [hr2] at hnil
    exact absurd hnil hfail

def rngC1 : RngDevice := { ID := "" }

def qmpC1 : QMPSocket := { Type' := "tcp", Name := "x" }

def cfgC1 : Config := { QMPSockets := [qmpC1], RngDevices := [rngC1] }

/-- C1 counterexample: a config holding both an invalid QMP socket and an
invalid RNG device returns the QMP-stage error, not an error aggregating a
message for the failing device, so the claim does not hold for every Config
with a failing device. -/
theorem C1_counterexample :
    Device.rng rngC1 ∈ allConfiguredDevices cfgC1 ∧
    Device.Valid (Device.rng rngC1) = some "RngDevice has empty ID field" ∧
    ConfigureParams "amd64" cfgC1 =
      .ret ([], some "Failed to append 1 QMPSocket(s):\nQMPSocket has invalid Type field: tcp") ∧
    "Failed to append 1 QMPSocket(s):\nQMPSocket has invalid Type field: tcp" ≠
      "Failed to append 1 devices: RngDevice has empty ID field" := by
  refine ⟨by decide, by decide, by decide, by decide⟩

def cfgC1w : Config := { RngDevices := [rngC1] }

/-- Witness: with no earlier-stage failure, a single invalid RNG device
produces exactly the aggregate device error and no tokens. -/
theorem C1_device_error_aggregation_witness :
    ([], some "Failed to append 1 devices: RngDevice has empty ID field") =
      (([] : List String), some ("Failed to append " ++
        toString ((allConfiguredDevices cfgC1w).filterMap Device.Valid).length ++
        " devices: " ++ String.intercalate ", "
          ((allConfiguredDevices cfgC1w).filterMap Device.Valid))) :=
  C1_device_error_aggregation "amd64" cfgC1w
    ([], some "Failed to append 1 devices: RngDevice has empty ID field")
    (by decide) (by simp [cfgC1w]) (by decide) (by decide)

/-- C9: a positive requested CPU count with a positive maximum CPU count
strictly below it makes the pipeline return a non-nil error and an empty
token sequence (whatever stage ends up reporting first). -/
theorem C9_low_maxcpus_fails (goarch : String) (c : Config)
    (out : List String × Option String)
    (hc : c.SMP.CPUs > 0) (hm : c.SMP.MaxCPUs > 0) (hlt : c.SMP.MaxCPUs < c.SMP.CPUs)
    (h : ConfigureParams goarch c = .ret out) :
    out.1 = [] ∧ out.2 ≠ none := by
  unfold ConfigureParams at h
  simp only [GoOut.monad_bind_eq, GoOut.pure_eq] at h
  rcases GoOut.bind_eq_ret h with ⟨c3, hmach, h⟩
  have hP4 : PipeStep c (Config.appendCPUModel c3) :=
    PipeStep.trans (PipeStep.trans (PipeStep.trans (appendName_step c)
      (appendUUID_step _)) (appendMachine_step _ c3 hmach)) (appendCPUModel_step c3)
  split at h
  · rename_i e heq
    simp only [GoOut.ret.injEq] at h
    rw [← h]
    exact ⟨rfl, by simp⟩
  rename_i hsmbEq
  split at h
  · rename_i e heq
    simp only [GoOut.ret.injEq] at h
    rw [← h]
    exact ⟨rfl, by simp⟩
  rename_i hqmpEq
  rcases GoOut.bind_eq_ret h with ⟨rd, hdev, h⟩
  split at h
  · rename_i e heq
    simp only [GoOut.ret.injEq] at h
    rw [← h]
    exact ⟨rfl, by simp⟩
  rename_i hrdEq
  have hP6M : PipeStep (Config.appendTPM (Config.appendSpice (Config.appendCPUModel c3)))
      (Config.appendMemory ((Config.appendQMPSockets
        ((Config.appendSMBIOSInfo (Config.appendTPM (Config.appendSpice
          (Config.appendCPUModel c3)))).1)).1)) :=
    PipeStep.trans (PipeStep.trans (appendSMBIOSInfo_pipe hsmbEq)
      (appendQMPSockets_pipe _)) (appendMemory_step _)
  have hSMPM : (Config.appendMemory ((Config.appendQMPSockets
      ((Config.appendSMBIOSInfo (Config.appendTPM (Config.appendSpice
        (Config.appendCPUModel c3)))).1)).1)).SMP = c.SMP := by
    rw [hP6M.SMP_eq, appendTPM_SMP, appendSpice_SMP, hP4.SMP_eq]
  unfold Config.appendDevices at hdev
  simp only [GoOut.monad_bind_eq, GoOut.pure_eq] at hdev
  rcases GoOut.bind_eq_ret hdev with ⟨r, hloop, hdev⟩
  obtain ⟨h1, h2, segs, h3, h4⟩ := appendDevicesLoop_spec goarch _ _ [] r hloop
  have hr1SMP : r.1.SMP = c.SMP := by
    have h5 := congrArg Config.SMP h2
    simp only at h5
    exact h5.trans hSMPM
  have hrdSMP : rd.1.SMP = c.SMP := by
    split at hdev
    · simp only [GoOut.ret.injEq] at hdev
      have h0 : rd.1 = r.1 := by rw [← hdev]
      rw [h0, hr1SMP]
    · simp only [GoOut.ret.injEq] at hdev
      have h0 : rd.1 = r.1 := by rw [← hdev]
      rw [h0, hr1SMP]
  split at h
  · rename_i e heq
    simp only [GoOut.ret.injEq] at h
    rw [← h]
    exact ⟨rfl, by simp⟩
  · rename_i heq
    exfalso
    have q1 := appendRTC_step rd.1
    have q2 := PipeStep.trans q1 (appendGlobalParams_step _)
    have q3 := PipeStep.trans q2 (appendPFlashParam_step _)
    have q4 := PipeStep.trans q3 (appendVGA_step _)
    have q5 := PipeStep.trans q4 (appendKnobs_step goarch _)
    have q6 := PipeStep.trans q5 (appendKernel_step _)
    have q7 := PipeStep.trans q6 (appendBios_step _)
    have q8 := PipeStep.trans q7 (appendIOThreads_step _)
    have q9 := PipeStep.trans q8 (appendIncoming_step _)
    have q10 := PipeStep.trans q9 (appendPidFile_step _)
    have q11 := PipeStep.trans q10 (appendLogFile_step _)
    have q12 := PipeStep.trans q11 (appendFwCfg_step _)
    have q13 := PipeStep.trans q12 (appendSeccompSandbox_step _)
    have hS := q13.SMP_eq.trans hrdSMP
    have hcp := appendCPUs_err _ (by rw [hS]; exact hc) (by rw [hS]; exact ⟨hm, hlt⟩)
    rw [hcp] at heq
    simp at heq

def cfgC9 : Config := { SMP := { CPUs := 2, MaxCPUs := 1 } }

/-- Witness: two CPUs with a maximum of one yields the CPU-validation error
and no tokens. -/
theorem C9_low_maxcpus_fails_witness :
    (((([] : List String),
      some "MaxCPUs 1 must be equal to or greater than CPUs 2")).1 = ([] : List String)) ∧
    ((([] : List String),
      some "MaxCPUs 1 must be equal to or greater than CPUs 2")).2 ≠ none :=
  C9_low_maxcpus_fails "amd64" cfgC9
    ([], some "MaxCPUs 1 must be equal to or greater than CPUs 2")
    (by decide) (by decide) (by decide) (by decide)

/-- C7: default transport resolution with no explicit override: PCI on
amd64/386 unless the machine type is microvm (then MMIO); always CCW on
s390x regardless of machine type; PCI on every other architecture. -/
theorem C7_default_transport_policy (goarch : String) (c : Config) :
    ((goarch = "amd64" ∨ goarch = "386") →
      defaultTransport "" goarch (some c) =
        (if c.Machine.Type' = MachineTypeMicrovm then TransportMMIO else TransportPCI)) ∧
    (goarch = "s390x" → defaultTransport "" goarch (some c) = TransportCCW) ∧
    (goarch ≠ "amd64" → goarch ≠ "386" → goarch ≠ "s390x" →
      defaultTransport "" goarch (some c) = TransportPCI) := by
  unfold defaultTransport
  refine ⟨fun hx => ?_, fun hx => ?_, fun h1 h2 h3 => ?_⟩
  · rw [if_pos hx]
  · subst hx
    rfl
  · rw [if_neg (by tauto), if_neg h3]

def cfgC7 : Config := { Machine := { Type' := MachineTypeMicrovm } }

/-- Witness: the three arms of the default-transport policy at concrete
architectures, on a microvm machine type. -/
theorem C7_default_transport_policy_witness :
    defaultTransport "" "amd64" (some cfgC7) =
      (if cfgC7.Machine.Type' = MachineTypeMicrovm then TransportMMIO else TransportPCI) ∧
    defaultTransport "" "s390x" (some cfgC7) = TransportCCW ∧
    defaultTransport "" "riscv64" (some cfgC7) = TransportPCI :=
  ⟨(C7_default_transport_policy "amd64" cfgC7).1 (Or.inl rfl),
   (C7_default_transport_policy "s390x" cfgC7).2.1 rfl,
   (C7_default_transport_policy "riscv64" cfgC7).2.2 (by decide) (by decide) (by decide)⟩

end QCli
